import Mathlib

/-!
Shallow embedding of the LevelEditorShortcuts editor plugin
(Source/LevelEditorShortcuts/Private/LevelEditorShortcutsProcessor.cpp and
TransformCopyPasteProcessor.cpp).

Machine floats are modelled as exact rationals (ℚ); float literals of the
source are mapped to their decimal values (0.4 = 2/5, 0.004 = 1/250,
KINDA_SMALL_NUMBER = 1/10000, 0.001 = 1/1000, 0.01 = 1/100).
Host-engine quantities that the plugin only reads (camera vectors, the
pixels-to-world-units factor, the selected actor's up axis, raycast results)
are inputs of the embedded functions; everything the plugin computes from
them is translated statement by statement from the C++.
-/

/-- Two-component vector of rationals, modelling FVector2D. -/
structure Vec2 where
  x : ℚ
  y : ℚ
  deriving DecidableEq

/-- Three-component vector of rationals, modelling FVector. -/
structure Vec3 where
  x : ℚ
  y : ℚ
  z : ℚ
  deriving DecidableEq

/-- FVector2D operator-: componentwise difference. -/
def Vec2.sub (a b : Vec2) : Vec2 := ⟨a.x - b.x, a.y - b.y⟩

/-- FVector operator+: componentwise sum. -/
def Vec3.add (a b : Vec3) : Vec3 := ⟨a.x + b.x, a.y + b.y, a.z + b.z⟩

/-- FVector operator* with a scalar. -/
def Vec3.smul (a : Vec3) (k : ℚ) : Vec3 := ⟨a.x * k, a.y * k, a.z * k⟩

/-- FVector::ZeroVector. -/
def Vec3.zero : Vec3 := ⟨0, 0, 0⟩

/-- FVector::ComponentMax: componentwise maximum. -/
def Vec3.componentMax (a b : Vec3) : Vec3 := ⟨max a.x b.x, max a.y b.y, max a.z b.z⟩

/-- KINDA_SMALL_NUMBER, the engine's default nearly-zero tolerance (1.e-4f). -/
def kindaSmallNumber : ℚ := 1 / 10000

/-- FVector2D::IsNearlyZero with the default tolerance. -/
def Vec2.isNearlyZero (v : Vec2) : Prop :=
  |v.x| ≤ kindaSmallNumber ∧ |v.y| ≤ kindaSmallNumber

instance (v : Vec2) : Decidable v.isNearlyZero := by
  unfold Vec2.isNearlyZero; infer_instance

/-- FVector::IsNearlyZero with the default tolerance. -/
def Vec3.isNearlyZero (v : Vec3) : Prop :=
  |v.x| ≤ kindaSmallNumber ∧ |v.y| ≤ kindaSmallNumber ∧ |v.z| ≤ kindaSmallNumber

instance (v : Vec3) : Decidable v.isNearlyZero := by
  unfold Vec3.isNearlyZero; infer_instance

/-- FMath::GridSnap: `(Grid == 0) ? Location : Floor((Location + Grid/2)/Grid) * Grid`. -/
def gridSnap (location grid : ℚ) : ℚ :=
  if grid = 0 then location else (⌊(location + grid / 2) / grid⌋ : ℚ) * grid

/-- One axis of the grid-snap block of MoveSelectedActorsHorizontal (lines 688-693,
and identically 694-699, 700-705) and MoveSelectedActorsVertical (lines 811-828):
when the accumulated axis value reaches the snap size, emit the snapped value and
subtract it from the accumulator.  Returns (emitted, new accumulator value). -/
def axisSnap (snapSize v : ℚ) : ℚ × ℚ :=
  if snapSize ≤ |v| then (gridSnap v snapSize, v - gridSnap v snapSize) else (0, v)

/-- The whole accumulate-and-snap step of MoveSelectedActorsHorizontal
(lines 678-717) and, token for token the same, of MoveSelectedActorsVertical
(lines 801-840): add the frame's world-space delta to AccumulatedMovement; with
a positive snap size emit per-axis snapped increments (with the
ActualDelta.IsNearlyZero early return, which happens AFTER the accumulator has
been decremented); without snapping emit the whole accumulator and clear it.
Returns (delta applied to the actors this frame, new AccumulatedMovement). -/
def snapAccumUpdate (snapSize : ℚ) (acc worldDelta : Vec3) : Vec3 × Vec3 :=
  let acc1 := acc.add worldDelta
  if 0 < snapSize then
    let px := axisSnap snapSize acc1.x
    let py := axisSnap snapSize acc1.y
    let pz := axisSnap snapSize acc1.z
    let actual : Vec3 := ⟨px.1, py.1, pz.1⟩
    let acc2 : Vec3 := ⟨px.2, py.2, pz.2⟩
    if actual.isNearlyZero then (Vec3.zero, acc2) else (actual, acc2)
  else (acc1, Vec3.zero)

/-- Iterate `snapAccumUpdate` over a drag's sequence of per-frame world-space
deltas, starting from accumulator `acc`.  Returns the list of per-frame deltas
applied to the actors and the final residual accumulator. -/
def runSnapAccum (snapSize : ℚ) (acc : Vec3) : List Vec3 → List Vec3 × Vec3
  | [] => ([], acc)
  | d :: ds =>
    let p := snapAccumUpdate snapSize acc d
    let r := runSnapAccum snapSize p.2 ds
    (p.1 :: r.1, r.2)

/-- Sum of a list of vectors. -/
def vsum : List Vec3 → Vec3
  | [] => Vec3.zero
  | d :: ds => d.add (vsum ds)

/-- A scene actor's transform state: location, rotation (as an Euler rotator
triple, carried through unchanged by the operations modelled here), and
3D scale. -/
structure Actor where
  location : Vec3
  rotation : Vec3
  scale : Vec3
  deriving DecidableEq

/-- The host's selection as enumerated by USelection::GetSelectedObject(i):
`some a` when Cast<AActor> succeeds for the i-th selected object, `none` for a
selected object that is not an actor. -/
abbrev Selection := List (Option Actor)

/-- The actors of a selection, in order (the objects the per-actor loops act on). -/
def selActors (sel : Selection) : List Actor := sel.filterMap id

/-- Host-editor inputs read by the drag operations of
FLevelEditorShortcutsProcessor.  `gEditorOk` is GEditor being non-null,
`viewportOk` is GetActiveViewportClient() being non-null, `snapSize` is the
result of GetGridSnapSize() (0 when grid snapping is disabled).  `camRight`,
`camForward` and `worldUnitsPerPixel` stand for the plane-projected camera
vectors and the FOV/distance/tilt-derived factor of lines 628-673 of
LevelEditorShortcutsProcessor.cpp; `vertAxis` and `vertScale` stand for the
vertical axis and the FOV/sensitivity factor of lines 762-796.  The inputs of
the scale snapping (ViewportSettings->SnapScaleEnabled and
GEditor->GetScaleGridSize()) are `snapScaleEnabled` and `scaleGridSize`. -/
structure MoveEnv where
  gEditorOk : Bool
  viewportOk : Bool
  snapSize : ℚ
  camRight : Vec3
  camForward : Vec3
  worldUnitsPerPixel : ℚ
  vertAxis : Vec3
  vertScale : ℚ
  snapScaleEnabled : Bool
  scaleGridSize : ℚ
  deriving DecidableEq

/-- The mutable state of FLevelEditorShortcutsProcessor (lines 382-411),
restricted to the fields the Q/E/R drag machinery touches, together with the
transaction slot DragTransaction (modelled as the Boolean
`dragTransactionOpen` = DragTransaction.IsValid()) and two history counters
`txCreated`/`txReleased` counting how many drag transactions have ever been
created and released.  The host's selected actors are carried in `selection`
so that the operations' writes to them can be stated. -/
structure SState where
  bQKeyDown : Bool := false
  bEKeyDown : Bool := false
  bRKeyDown : Bool := false
  lastMousePosition : Vec2 := ⟨0, 0⟩
  dragStartCursorPos : Vec2 := ⟨0, 0⟩
  bCursorHidden : Bool := false
  bDragInitialized : Bool := false
  accumulatedMovement : Vec3 := Vec3.zero
  totalScaleDelta : ℚ := 0
  scaleDragInitialScales : List Vec3 := []
  dragTransactionOpen : Bool := false
  txCreated : Nat := 0
  txReleased : Nat := 0
  selection : Selection := []
  deriving DecidableEq

/-- EndDragTransaction (lines 413-423): release the transaction if one is
open and reset all drag bookkeeping. -/
def endDragTransaction (s : SState) : SState :=
  { s with dragTransactionOpen := false,
           txReleased := s.txReleased + (if s.dragTransactionOpen then 1 else 0),
           bDragInitialized := false,
           accumulatedMovement := Vec3.zero,
           totalScaleDelta := 0,
           scaleDragInitialScales := [] }

/-- EnsureDragTransaction (lines 438-444): create a transaction only when none
is currently open. -/
def ensureDragTransaction (s : SState) : SState :=
  if s.dragTransactionOpen then s
  else { s with dragTransactionOpen := true, txCreated := s.txCreated + 1 }

/-- SetCursorHidden (lines 425-436); the ICursor::Show host call is not
modelled. -/
def setCursorHidden (s : SState) (hide : Bool) : SState :=
  if hide = s.bCursorHidden then s else { s with bCursorHidden := hide }

/-- The per-actor loop of the move operations (lines 720-730 / 842-852):
each selected actor's location is shifted by the frame's ActualDelta. -/
def moveSelection (sel : Selection) (delta : Vec3) : Selection :=
  sel.map (Option.map (fun a => { a with location := a.location.add delta }))

/-- The per-pair loop of ScaleSelectedActorsUniform (lines 911-924) under a
selection unchanged since the snapshot was taken: the i-th actor of the
selection receives the i-th snapshot scale times the multiplier, clamped
componentwise to 0.001.  Non-actor entries are passed through, and actors
beyond the snapshot (impossible in the traces modelled here) are left as-is. -/
def applyScaleSnapshot : Selection → List Vec3 → ℚ → Selection
  | [], _, _ => []
  | none :: rest, snaps, m => none :: applyScaleSnapshot rest snaps m
  | some a :: rest, [], m => some a :: applyScaleSnapshot rest [] m
  | some a :: rest, sv :: snaps, m =>
      some { a with scale := (sv.smul m).componentMax ⟨1/1000, 1/1000, 1/1000⟩ } ::
        applyScaleSnapshot rest snaps m

/-- MoveSelectedActorsHorizontal (lines 602-734).  The guards (GEditor,
non-empty selection, viewport client) return with nothing changed; otherwise
the transaction is ensured on the first movement of the drag, the mouse delta
is converted to a world delta on the movement plane (line 676, with the camera
factors provided by `env`), and the accumulate-and-snap block `snapAccumUpdate`
decides the delta applied to the selected actors. -/
def moveSelectedActorsHorizontal (env : MoveEnv) (s : SState) (mouseDelta : Vec2) :
    SState :=
  if !env.gEditorOk then s
  else if s.selection = [] then s
  else if !env.viewportOk then s
  else
    let s1 := if !s.bDragInitialized
      then ensureDragTransaction { s with bDragInitialized := true }
      else s
    let worldDelta :=
      ((env.camRight.smul mouseDelta.x).add
        (env.camForward.smul (-mouseDelta.y))).smul env.worldUnitsPerPixel
    let p := snapAccumUpdate env.snapSize s1.accumulatedMovement worldDelta
    { s1 with accumulatedMovement := p.2,
              selection := moveSelection s1.selection p.1 }

/-- MoveSelectedActorsVertical (lines 736-856): same guards, transaction
deferral and snap block as the horizontal move, with the world delta taken
along the vertical axis (line 799: `VerticalAxis * (-MouseDeltaY * Scale)`,
with the FOV/sensitivity factor `Scale` provided by `env.vertScale`). -/
def moveSelectedActorsVertical (env : MoveEnv) (s : SState) (mouseDeltaY : ℚ) :
    SState :=
  if !env.gEditorOk then s
  else if s.selection = [] then s
  else if !env.viewportOk then s
  else
    let s1 := if !s.bDragInitialized
      then ensureDragTransaction { s with bDragInitialized := true }
      else s
    let delta := env.vertAxis.smul (-mouseDeltaY * env.vertScale)
    let p := snapAccumUpdate env.snapSize s1.accumulatedMovement delta
    { s1 with accumulatedMovement := p.2,
              selection := moveSelection s1.selection p.1 }

/-- ScaleSelectedActorsUniform (lines 858-928): on the first movement of the
drag capture each selected actor's current scale in ScaleDragInitialScales;
every frame accumulate `(deltaX - deltaY) * 0.004` into TotalScaleDelta,
compute the multiplier `max(1 + TotalScaleDelta, 0.01)` relative to the
snapshot, optionally snap it to the scale grid (clamped up to one grid step),
and set each snapshot actor's scale to its snapshot value times the
multiplier, clamped componentwise to 0.001. -/
def scaleSelectedActorsUniform (env : MoveEnv) (s : SState) (mouseDelta : Vec2) :
    SState :=
  if !env.gEditorOk then s
  else if s.selection = [] then s
  else
    let s1 := if !s.bDragInitialized
      then
        let s' := ensureDragTransaction { s with bDragInitialized := true }
        { s' with scaleDragInitialScales := (selActors s.selection).map (fun a => a.scale) }
      else s
    let radialDelta := mouseDelta.x - mouseDelta.y
    let total := s1.totalScaleDelta + radialDelta * (1/250)
    let m0 := max (1 + total) (1/100)
    let m := if env.snapScaleEnabled then
        (if 0 < env.scaleGridSize then
          (let ms := gridSnap m0 env.scaleGridSize
           if ms < env.scaleGridSize then env.scaleGridSize else ms)
         else m0)
      else m0
    { s1 with totalScaleDelta := total,
              selection := applyScaleSnapshot s1.selection s1.scaleDragInitialScales m }

/-- Host-editor context read by the event handlers: Play-in-Editor in
progress, Landscape/Foliage mode active, the level viewport focused, and the
event's modifier keys. -/
structure Ctx where
  play : Bool
  landscapeOrFoliage : Bool
  viewportFocused : Bool
  ctrl : Bool
  alt : Bool
  shift : Bool
  deriving DecidableEq

/-- The drag keys of the shortcut processor. -/
inductive SKey
  | keyQ
  | keyE
  | keyR
  deriving DecidableEq

/-- Which transform operation a tick dispatched. -/
inductive DragOp
  | horizontal
  | vertical
  | scaleUniform
  deriving DecidableEq

/-- FLevelEditorShortcutsProcessor::Tick (lines 52-100): skip everything
during Play-in-Editor; while a drag key is held compute the cursor delta since
the last sampled position, warp the hidden cursor back to the drag start
(otherwise sample the new position), skip negligible deltas, and dispatch the
single operation selected by the fixed priority Q, else E, else R.  Returns
the new state and which operation (if any) was dispatched. -/
def shortcutTick (env : MoveEnv) (ctx : Ctx) (s : SState) (cursorPos : Vec2) :
    SState × Option DragOp :=
  if ctx.play then (s, none)
  else if s.bQKeyDown || s.bEKeyDown || s.bRKeyDown then
    let mouseDelta := cursorPos.sub s.lastMousePosition
    let s1 := if s.bCursorHidden
      then { s with lastMousePosition := s.dragStartCursorPos }
      else { s with lastMousePosition := cursorPos }
    if mouseDelta.isNearlyZero then (s1, none)
    else if s1.bQKeyDown then
      (moveSelectedActorsHorizontal env s1 mouseDelta, some DragOp.horizontal)
    else if s1.bEKeyDown then
      (moveSelectedActorsVertical env s1 mouseDelta.y, some DragOp.vertical)
    else if s1.bRKeyDown then
      (scaleSelectedActorsUniform env s1 mouseDelta, some DragOp.scaleUniform)
    else (s1, none)
  else (s, none)

/-- The Q/E/R cases of FLevelEditorShortcutsProcessor::HandleKeyDownEvent
(lines 102-191): no effect during Play-in-Editor, in Landscape/Foliage modes,
or without level-viewport focus; on the first press record the cursor
position as drag start and hide the cursor; consume the key only when no
modifier is held.  (The G and 1/2/3 cases touch no drag state and are outside
the modelled claims.)  Returns the new state and whether the event was
consumed. -/
def shortcutKeyDown (ctx : Ctx) (s : SState) (key : SKey) (cursorPos : Vec2) :
    SState × Bool :=
  if ctx.play then (s, false)
  else if ctx.landscapeOrFoliage then (s, false)
  else if !ctx.viewportFocused then (s, false)
  else
    let s1 := match key with
      | SKey.keyQ =>
        if !s.bQKeyDown then
          setCursorHidden { s with bQKeyDown := true, lastMousePosition := cursorPos,
                                   dragStartCursorPos := cursorPos } true
        else s
      | SKey.keyE =>
        if !s.bEKeyDown then
          setCursorHidden { s with bEKeyDown := true, lastMousePosition := cursorPos,
                                   dragStartCursorPos := cursorPos } true
        else s
      | SKey.keyR =>
        if !s.bRKeyDown then
          setCursorHidden { s with bRKeyDown := true, lastMousePosition := cursorPos,
                                   dragStartCursorPos := cursorPos } true
        else s
    if !ctx.ctrl && !ctx.alt && !ctx.shift then (s1, true) else (s1, false)

/-- The Q/E/R cases of FLevelEditorShortcutsProcessor::HandleKeyUpEvent
(lines 227-290): no effect during Play-in-Editor; otherwise clear the held
flag, end the drag transaction, restore the cursor, and consume the event.
(The Q-scroll widget-mode restore and the G case touch no drag state.) -/
def shortcutKeyUp (ctx : Ctx) (s : SState) (key : SKey) : SState × Bool :=
  if ctx.play then (s, false)
  else match key with
  | SKey.keyQ => (setCursorHidden (endDragTransaction { s with bQKeyDown := false }) false, true)
  | SKey.keyE => (setCursorHidden (endDragTransaction { s with bEKeyDown := false }) false, true)
  | SKey.keyR => (setCursorHidden (endDragTransaction { s with bRKeyDown := false }) false, true)

/-- An event delivered to the shortcut processor. -/
inductive SEvent
  | keyDown (key : SKey) (ctx : Ctx) (cursorPos : Vec2)
  | keyUp (key : SKey) (ctx : Ctx)
  | frameTick (env : MoveEnv) (ctx : Ctx) (cursorPos : Vec2)

/-- One event step of the shortcut processor. -/
def shortcutStep (s : SState) : SEvent → SState
  | SEvent.keyDown k ctx pos => (shortcutKeyDown ctx s k pos).1
  | SEvent.keyUp k ctx => (shortcutKeyUp ctx s k).1
  | SEvent.frameTick env ctx pos => (shortcutTick env ctx s pos).1

/-- Run the shortcut processor over a sequence of events. -/
def shortcutRun (s : SState) (evs : List SEvent) : SState := evs.foldl shortcutStep s

/-- The data of one frame tick during a drag session. -/
structure TickData where
  env : MoveEnv
  ctx : Ctx
  pos : Vec2

/-- The event trace of one single-key drag session: key down, a sequence of
frame ticks, key up. -/
def sessionEvents (k : SKey) (ctx0 : Ctx) (pos0 : Vec2) (ticks : List TickData)
    (ctx1 : Ctx) : List SEvent :=
  SEvent.keyDown k ctx0 pos0 ::
    (ticks.map (fun t => SEvent.frameTick t.env t.ctx t.pos) ++ [SEvent.keyUp k ctx1])

/-- Fold ScaleSelectedActorsUniform over the per-frame mouse deltas of an
R drag. -/
def runScaleDrag (env : MoveEnv) (s : SState) (deltas : List Vec2) : SState :=
  deltas.foldl (fun st d => scaleSelectedActorsUniform env st d) s

/-- The accumulated (deltaX - deltaY) sum of a sequence of mouse deltas. -/
def radialSum (deltas : List Vec2) : ℚ := (deltas.map (fun d => d.x - d.y)).sum

/-- ECollisionEnabled::Type. -/
inductive CollisionEnabled
  | noCollision
  | queryOnly
  | queryAndPhysics
  | physicsOnly
  deriving DecidableEq

/-- A primitive component as seen by the ground-snap loop: an identity (for
the ignore set) and its collision mode. -/
structure HitComp where
  compId : Nat
  collision : CollisionEnabled
  deriving DecidableEq

/-- A potential line-trace hit below an actor: the hit component
(HitResult.GetComponent(), which can be null), the impact point's Z, and the
impact normal. -/
structure Hit where
  comp : Option HitComp
  impactZ : ℚ
  impactNormal : Vec3
  deriving DecidableEq

/-- The collision modes the loop accepts as a true collidable surface
(lines 348-353 / 522-527 of TransformCopyPasteProcessor.cpp). -/
def blockingCollision : CollisionEnabled → Bool
  | CollisionEnabled.queryAndPhysics => true
  | CollisionEnabled.physicsOnly => true
  | _ => false

/-- World->LineTraceSingleByChannel with the accumulated ignore set: the first
hit along the downward ray whose component is not ignored (a hit with a null
component can never be ignored).  `hits` is the ray-ordered list of candidate
hits below the actor. -/
def lineTraceVisibility (hits : List Hit) (ignored : List Nat) : Option Hit :=
  hits.find? (fun h => match h.comp with
    | some c => !(ignored.contains c.compId)
    | none => true)

/-- The raycast retry cap (`for Attempt = 0; Attempt < 50`). -/
def raycastAttemptCap : Nat := 50

/-- The re-cast loop of SnapSelectedToGround (lines 336-361, identical at
lines 510-535): trace; stop with no ground if nothing is hit; accept the hit
if its component has QueryAndPhysics or PhysicsOnly collision; otherwise add
the component (when present) to the ignore set and trace again, at most
`fuel` times in total. -/
def snapTraceLoop : Nat → List Hit → List Nat → Option Hit
  | 0, _, _ => none
  | fuel + 1, hits, ignored =>
    match lineTraceVisibility hits ignored with
    | none => none
    | some h =>
      match h.comp with
      | some c =>
        if blockingCollision c.collision then some h
        else snapTraceLoop fuel hits (c.compId :: ignored)
      | none => snapTraceLoop fuel hits ignored

/-- The per-actor body of SnapSelectedToGround (lines 262-400): run the
re-cast loop; on a hit move the actor so its mesh bottom rests 5 units above
the impact point and re-orient it with `align` (the surface-alignment
computation of lines 372-394, abstracted as an input normal × rotation →
rotation); with no hit the actor is not modified (`none`).
`meshBottomOffset` is the actor-origin-to-mesh-bottom distance computed from
the actor's components at lines 272-314. -/
def snapGroundActor (align : Vec3 → Vec3 → Vec3) (hits : List Hit)
    (meshBottomOffset : ℚ) (a : Actor) : Option Actor :=
  match snapTraceLoop raycastAttemptCap hits [] with
  | none => none
  | some h =>
    some { a with
      location := ⟨a.location.x, a.location.y, h.impactZ + meshBottomOffset + 5⟩,
      rotation := align h.impactNormal a.rotation }

/-- FTransform: location, rotation and 3D scale. -/
structure FTransformQ where
  loc : Vec3
  rot : Vec3
  scale3D : Vec3
  deriving DecidableEq

/-- The static state of FTransformCopyPasteProcessor (lines 33-39, 707-712):
the copied transform snapshot, its valid flag, and the deferred
paste-to-folder record. -/
structure CPState where
  copiedTransform : FTransformQ := ⟨Vec3.zero, Vec3.zero, ⟨1, 1, 1⟩⟩
  bHasCopiedTransform : Bool := false
  pendingPasteFolderPath : Option Nat := none
  actorsBeforePaste : List Nat := []
  bPasteToFolderPending : Bool := false
  deriving DecidableEq

/-- Host-editor inputs of the copy/paste processor.  `play` is
GEditor->IsPlaySessionInProgress(); `gEditorOk`/`worldOk` are GEditor and the
editor world being non-null; `selection` is the selected-object list;
`rayHits` and `meshBottomOffset` give, per actor, the ray-ordered candidate
hits below it and its component-derived mesh-bottom offset (lines 272-330);
`alignToSurface` abstracts the surface-alignment rotation of lines 372-394;
`worldActors` are the identities of all actors in the world (TActorIterator);
`selectionFolder` is the folder path of the first selected actor
(lines 634-645, `none` for NAME_None); `postDuplicateSelection` is the
selection after the host's DUPLICATE command (line 592). -/
structure CPEnv where
  play : Bool
  gEditorOk : Bool
  worldOk : Bool
  selection : Selection
  rayHits : Actor → List Hit
  meshBottomOffset : Actor → ℚ
  alignToSurface : Vec3 → Vec3 → Vec3
  worldActors : List Nat
  selectionFolder : Option Nat
  postDuplicateSelection : Selection

/-- CopySelectedTransform (lines 174-196): with GEditor present and a
non-empty selection whose first object casts to an actor, store that actor's
full transform (GetActorTransform(), i.e. location, rotation AND scale) and
set the has-copied flag; otherwise change nothing. -/
def copySelectedTransform (gEditorOk : Bool) (sel : Selection) (st : CPState) :
    CPState :=
  if !gEditorOk then st
  else if sel = [] then st
  else match sel.head? with
    | some (some a) =>
      { st with copiedTransform := ⟨a.location, a.rotation, a.scale⟩,
                bHasCopiedTransform := true }
    | _ => st

/-- PasteTransformToSelected (lines 198-237): guards (GEditor, has-copied
flag, non-empty selection) fail without opening a transaction; otherwise a
scoped transaction is opened and every selected actor receives the copied
location and rotation, its own scale kept.  Returns (updated selection,
whether a transaction was opened, the handler's return value
NumModified > 0). -/
def pasteTransformToSelected (gEditorOk : Bool) (sel : Selection) (st : CPState) :
    Selection × Bool × Bool :=
  if !gEditorOk || !st.bHasCopiedTransform then (sel, false, false)
  else if sel = [] then (sel, false, false)
  else
    let out := sel.map (Option.map (fun a =>
      { a with location := st.copiedTransform.loc,
               rotation := st.copiedTransform.rot }))
    (out, true, decide (0 < (selActors sel).length))

/-- SnapSelectedToGround (lines 239-411), parametrized by the
surface-alignment function so that the no-rotation variant (lines 414-561,
whose only difference inside the per-actor body is resetting the rotation to
ZeroRotator) shares the body.  Guards fail without opening a transaction;
otherwise the scoped transaction is opened BEFORE the per-actor raycasts, each
actor is repositioned only if its re-cast loop accepts a hit, and the handler
return value is NumModified > 0. -/
def snapSelectedToGroundWith (align : Vec3 → Vec3 → Vec3) (env : CPEnv) :
    Selection × Bool × Bool :=
  if !env.gEditorOk then (env.selection, false, false)
  else if env.selection = [] then (env.selection, false, false)
  else if !env.worldOk then (env.selection, false, false)
  else
    let out := env.selection.map (fun o => match o with
      | none => none
      | some a =>
        match snapGroundActor align (env.rayHits a) (env.meshBottomOffset a) a with
        | some a' => some a'
        | none => some a)
    let numModified := env.selection.countP (fun o => match o with
      | some a => (snapGroundActor align (env.rayHits a) (env.meshBottomOffset a) a).isSome
      | none => false)
    (out, true, decide (0 < numModified))

/-- Ctrl+B: SnapSelectedToGround, aligning each snapped actor to the surface
normal. -/
def snapSelectedToGround (env : CPEnv) : Selection × Bool × Bool :=
  snapSelectedToGroundWith env.alignToSurface env

/-- Shift+B: SnapSelectedToGroundNoRotation, resetting each snapped actor's
rotation to ZeroRotator (line 546). -/
def snapSelectedToGroundNoRotation (env : CPEnv) : Selection × Bool × Bool :=
  snapSelectedToGroundWith (fun _ _ => Vec3.zero) env

/-- DuplicateInPlace (lines 563-615): record the selected actors' transforms,
run the host DUPLICATE command (whose resulting selection is
`env.postDuplicateSelection`), and if the new selection's size matches,
re-apply the recorded transforms to it inside a transaction.  Returns true
whenever the guards passed (line 614). -/
def duplicateInPlace (env : CPEnv) : Selection × Bool × Bool :=
  if !env.gEditorOk then (env.selection, false, false)
  else if env.selection = [] then (env.selection, false, false)
  else
    let originalTransforms := (selActors env.selection).map
      (fun a => (⟨a.location, a.rotation, a.scale⟩ : FTransformQ))
    if originalTransforms = [] then (env.selection, false, false)
    else
      let sel2 := env.postDuplicateSelection
      if sel2.length = originalTransforms.length then
        let out := (sel2.zip originalTransforms).map
          (fun p => p.1.map (fun _ => (⟨p.2.loc, p.2.rot, p.2.scale3D⟩ : Actor)))
        (out, true, true)
      else (sel2, false, true)

/-- SetupPasteToFolder (lines 618-659): remember the first selected actor's
folder path (NAME_None when the selection holds no actor), snapshot the
world's actor set, and raise the pending flag.  Returns false (the synthetic
Ctrl+V and the outer `return true` are in the key handler). -/
def setupPasteToFolder (env : CPEnv) (st : CPState) : CPState × Bool :=
  if !env.gEditorOk then (st, false)
  else if !env.worldOk then (st, false)
  else
    let folder := match selActors env.selection with
      | [] => none
      | _ :: _ => env.selectionFolder
    ({ st with pendingPasteFolderPath := folder,
               actorsBeforePaste := env.worldActors,
               bPasteToFolderPending := true }, false)

/-- CompletePasteToFolder (lines 662-704): diff the world's actors against the
snapshot; when a target folder and newly appeared actors exist, open a
transaction and move them (the folder writes themselves are host state outside
this model; the Boolean records that the transaction was opened). -/
def completePasteToFolder (env : CPEnv) (st : CPState) : CPState × Bool :=
  if !env.gEditorOk then (st, false)
  else if !env.worldOk then (st, false)
  else
    let newlyPasted := env.worldActors.filter
      (fun a => !(st.actorsBeforePaste.contains a))
    let st1 := { st with actorsBeforePaste := [] }
    if st.pendingPasteFolderPath = none ∨ newlyPasted = [] then (st1, false)
    else (st1, true)

/-- FTransformCopyPasteProcessor::Tick (lines 60-68): consume the pending
paste-to-folder flag and complete the deferred move.  Note that, unlike the
key handlers, this Tick does NOT consult `env.play`.  Returns the new state
and whether a transaction was opened. -/
def cpTick (env : CPEnv) (st : CPState) : CPState × Bool :=
  if st.bPasteToFolderPending then
    completePasteToFolder env { st with bPasteToFolderPending := false }
  else (st, false)

/-- The keys handled by FTransformCopyPasteProcessor::HandleKeyDownEvent. -/
inductive CPKey
  | keyB
  | keyC
  | keyT
  | keyD
  | keyV
  | keyOther
  deriving DecidableEq

/-- A key-down event as seen by the copy/paste processor. -/
structure CPKeyEvent where
  key : CPKey
  ctrl : Bool
  shift : Bool
  deriving DecidableEq

/-- Observable side effects of one copy/paste key event: whether an undo
transaction was opened and whether the synthetic Ctrl+V keystroke was sent. -/
structure CPEffects where
  txOpened : Bool
  sentPasteKeystroke : Bool
  deriving DecidableEq

/-- No side effects. -/
def noEffects : CPEffects := ⟨false, false⟩

/-- FTransformCopyPasteProcessor::HandleKeyDownEvent (lines 70-161): nothing
during Play-in-Editor; Shift+B (without Ctrl) ground-snaps without rotation;
everything else requires Ctrl; Ctrl+C copies the transform and never consumes
the event; Ctrl+T pastes, Ctrl+B ground-snaps, Ctrl+D duplicates in place,
each consumed only when the operation reports success; Ctrl+Shift+V sets up
the deferred paste-to-folder, sends a synthetic Ctrl+V and is always
consumed.  Returns (new static state, updated selection, effects, consumed). -/
def cpHandleKeyDown (env : CPEnv) (st : CPState) (ev : CPKeyEvent) :
    CPState × Selection × CPEffects × Bool :=
  if env.play then (st, env.selection, noEffects, false)
  else if ev.key = CPKey.keyB ∧ ev.shift = true ∧ ev.ctrl = false then
    let r := snapSelectedToGroundNoRotation env
    (st, r.1, ⟨r.2.1, false⟩, r.2.2)
  else if ev.ctrl = false then (st, env.selection, noEffects, false)
  else if ev.key = CPKey.keyC then
    (copySelectedTransform env.gEditorOk env.selection st, env.selection, noEffects, false)
  else if ev.key = CPKey.keyT then
    let r := pasteTransformToSelected env.gEditorOk env.selection st
    (st, r.1, ⟨r.2.1, false⟩, r.2.2)
  else if ev.key = CPKey.keyB ∧ ev.shift = false then
    let r := snapSelectedToGround env
    (st, r.1, ⟨r.2.1, false⟩, r.2.2)
  else if ev.key = CPKey.keyD then
    let r := duplicateInPlace env
    (st, r.1, ⟨r.2.1, false⟩, r.2.2)
  else if ev.key = CPKey.keyV ∧ ev.shift = true then
    let r := setupPasteToFolder env st
    (r.1, env.selection, ⟨false, true⟩, true)
  else (st, env.selection, noEffects, false)

/-- A host context outside Play-in-Editor, outside Landscape/Foliage modes,
with the level viewport focused and no modifier keys held. -/
def ctxGood : Ctx :=
  ⟨false, false, true, false, false, false⟩

/-- A host context with a Play session in progress. -/
def ctxPlay : Ctx :=
  ⟨true, false, true, false, false, false⟩

/-- A concrete benign move environment: host singletons present, no grid
snapping, unit camera factors. -/
def envGood : MoveEnv :=
  ⟨true, true, 0, ⟨1, 0, 0⟩, ⟨0, 1, 0⟩, 1, ⟨0, 0, 1⟩, 1, false, 0⟩

/-- A concrete actor at the origin with unit scale. -/
def actorUnit : Actor := ⟨Vec3.zero, Vec3.zero, ⟨1, 1, 1⟩⟩

/-- A concrete actor whose scale (0.0005 on every axis) lies below the 0.001
clamp floor of the uniform-scale drag. -/
def actorTiny : Actor := ⟨Vec3.zero, Vec3.zero, ⟨1/2000, 1/2000, 1/2000⟩⟩

/-- Initial shortcut-processor state with one selected actor. -/
def sStartOne : SState := { selection := [some actorUnit] }

/-- Initial shortcut-processor state with one tiny-scaled selected actor. -/
def sStartTiny : SState := { selection := [some actorTiny] }

/-- A concrete actor identical to `actorUnit` except for its scale. -/
def actorScaled : Actor := ⟨Vec3.zero, Vec3.zero, ⟨2, 3, 4⟩⟩

/-- A concrete blocking hit (a component with QueryAndPhysics collision). -/
def hitBlocking : Hit := ⟨some ⟨7, CollisionEnabled.queryAndPhysics⟩, 0, ⟨0, 0, 1⟩⟩

/-- A concrete non-blocking hit (a component with QueryOnly collision). -/
def hitQueryOnly : Hit := ⟨some ⟨3, CollisionEnabled.queryOnly⟩, 10, ⟨0, 0, 1⟩⟩

/-- A move environment identical to `envGood` except that no active level
viewport client exists. -/
def envNoViewport : MoveEnv :=
  ⟨true, false, 0, ⟨1, 0, 0⟩, ⟨0, 1, 0⟩, 1, ⟨0, 0, 1⟩, 1, false, 0⟩

/-- A copy/paste environment outside Play, with host singletons present, one
selected actor, and a downward ray that hits nothing. -/
def cpEnvRayFail : CPEnv :=
  ⟨false, true, true, [some actorUnit], fun _ => [], fun _ => 0, fun _ r => r,
    [], none, []⟩

/-- A copy/paste environment DURING a Play session, with host singletons
present and one actor (id 1) newly appeared in the world. -/
def cpEnvPlayPending : CPEnv :=
  ⟨true, true, true, [], fun _ => [], fun _ => 0, fun _ r => r, [1], none, []⟩

/-- A copy/paste state in which Ctrl+Shift+V has set up a deferred
paste-to-folder (target folder recorded, empty world snapshot, pending flag
raised) that the next tick will complete. -/
def cpStatePending : CPState :=
  { pendingPasteFolderPath := some 0, actorsBeforePaste := [],
    bPasteToFolderPending := true }

/-- The drag-key flags corresponding to a single-key session: the session's
key is down, the other two drag keys are up. -/
def keyFlagsMatch (k : SKey) (s : SState) : Prop :=
  match k with
  | SKey.keyQ => s.bQKeyDown = true ∧ s.bEKeyDown = false ∧ s.bRKeyDown = false
  | SKey.keyE => s.bQKeyDown = false ∧ s.bEKeyDown = true ∧ s.bRKeyDown = false
  | SKey.keyR => s.bQKeyDown = false ∧ s.bEKeyDown = false ∧ s.bRKeyDown = true

/-- Transaction bookkeeping consistency: the number of drag transactions ever
created equals the number released plus one exactly when the transaction slot
is occupied.  This holds initially (0 = 0, slot empty) and is preserved by
every event, and it implies that at most one drag transaction is open at any
time. -/
def goodTx (s : SState) : Prop :=
  s.txCreated = s.txReleased + (if s.dragTransactionOpen then 1 else 0)

/-- The state invariant holding throughout a single-key drag session that
started at cursor position `pos0` with `c0`/`r0` transactions already
created/released: only the session's key is held, the cursor is hidden, both
recorded cursor positions sit at the drag start, the selection is non-empty,
the transaction slot is occupied exactly when the drag is initialized, and
exactly one transaction has been created by this session iff the drag is
initialized. -/
def sessionInv (k : SKey) (pos0 : Vec2) (c0 r0 : Nat) (s : SState) : Prop :=
  keyFlagsMatch k s ∧
  s.bCursorHidden = true ∧
  s.lastMousePosition = pos0 ∧
  s.dragStartCursorPos = pos0 ∧
  s.selection ≠ [] ∧
  s.dragTransactionOpen = s.bDragInitialized ∧
  s.txCreated = c0 + (if s.bDragInitialized then 1 else 0) ∧
  s.txReleased = r0

/-- The frame-tick events of a session's tick data. -/
def tickEvents (ticks : List TickData) : List SEvent :=
  ticks.map (fun t => SEvent.frameTick t.env t.ctx t.pos)

/-- Event trace: an E drag starts and processes one movement (one transaction
is created for it). -/
def evsOverlapA : List SEvent :=
  [SEvent.keyDown SKey.keyE ctxGood ⟨0, 0⟩,
   SEvent.frameTick envGood ctxGood ⟨0, 5⟩]

/-- Event trace: during the E drag of `evsOverlapA`, Q is pressed, one frame
of horizontal movement is processed, and Q is released. -/
def evsOverlapB : List SEvent :=
  evsOverlapA ++
    [SEvent.keyDown SKey.keyQ ctxGood ⟨0, 0⟩,
     SEvent.frameTick envGood ctxGood ⟨10, 0⟩,
     SEvent.keyUp SKey.keyQ ctxGood]

/-! ### Remaining definitions are inserted above this marker. -/

/-! ## Lemmas and claim theorems -/

theorem gridSnap_is_multiple (v g : ℚ) (hg : g ≠ 0) :
    ∃ k : ℤ, gridSnap v g = k * g := by
  refine ⟨⌊(v + g / 2) / g⌋, ?_⟩
  simp [gridSnap, hg]

theorem gridSnap_abs_ge (v g : ℚ) (hg : 0 < g) (hv : g ≤ |v|) :
    g ≤ |gridSnap v g| := by
  have hg' : g ≠ 0 := ne_of_gt hg
  rcases le_abs'.mp hv with hneg | hpos
  · -- v ≤ -g, so the floor is at most -1 and the snapped value is at most -g
    have hx : (v + g / 2) / g ≤ -(1 / 2) := by
      rw [div_le_iff₀ hg]
      nlinarith
    have hfl : ⌊(v + g / 2) / g⌋ ≤ -1 := by
      have h0 : ⌊(v + g / 2) / g⌋ < 0 := by
        rw [Int.floor_lt]
        push_cast
        linarith
      omega
    have hle : gridSnap v g ≤ -g := by
      rw [gridSnap, if_neg hg']
      calc (⌊(v + g / 2) / g⌋ : ℚ) * g ≤ (-1 : ℚ) * g := by
            apply mul_le_mul_of_nonneg_right _ (le_of_lt hg)
            exact_mod_cast hfl
        _ = -g := by ring
    exact le_abs.mpr (Or.inr (by linarith))
  · -- g ≤ v, so the floor is at least 1 and the snapped value is at least g
    have hx : (3 / 2 : ℚ) ≤ (v + g / 2) / g := by
      rw [le_div_iff₀ hg]
      nlinarith
    have hfl : (1 : ℤ) ≤ ⌊(v + g / 2) / g⌋ := by
      rw [Int.le_floor]
      push_cast
      linarith
    have hge : g ≤ gridSnap v g := by
      rw [gridSnap, if_neg hg']
      calc g = (1 : ℚ) * g := by ring
        _ ≤ (⌊(v + g / 2) / g⌋ : ℚ) * g := by
            apply mul_le_mul_of_nonneg_right _ (le_of_lt hg)
            exact_mod_cast hfl
    exact le_abs.mpr (Or.inl hge)

theorem axisSnap_conserves (snapSize v : ℚ) :
    (axisSnap snapSize v).1 + (axisSnap snapSize v).2 = v := by
  unfold axisSnap
  split <;> ring

theorem axisSnap_is_multiple (snapSize v : ℚ) (hs : 0 < snapSize) :
    ∃ k : ℤ, (axisSnap snapSize v).1 = k * snapSize := by
  unfold axisSnap
  split
  · exact gridSnap_is_multiple v snapSize (ne_of_gt hs)
  · exact ⟨0, by simp⟩

theorem axisSnap_zero_or_big (snapSize v : ℚ) (hs : 0 < snapSize) :
    (axisSnap snapSize v).1 = 0 ∨ snapSize ≤ |(axisSnap snapSize v).1| := by
  unfold axisSnap
  split
  · right
    exact gridSnap_abs_ge v snapSize hs (by assumption)
  · left; rfl

theorem axisSnap_emit_zero (snapSize v : ℚ) (hs : 0 < snapSize)
    (h : (axisSnap snapSize v).1 = 0) : (axisSnap snapSize v).2 = v := by
  unfold axisSnap at h ⊢
  split at h
  next hcond =>
    exfalso
    have hbig := gridSnap_abs_ge v snapSize hs hcond
    simp only at h
    rw [h] at hbig
    simp only [abs_zero] at hbig
    linarith
  next hcond =>
    rw [if_neg hcond]

theorem Vec3.add_assoc' (a b c : Vec3) : (a.add b).add c = a.add (b.add c) := by
  simp only [Vec3.add, Vec3.mk.injEq]
  exact ⟨by ring, by ring, by ring⟩

theorem snapAccumUpdate_conserves (snapSize : ℚ) (acc d : Vec3)
    (htol : kindaSmallNumber < snapSize) :
    ((snapAccumUpdate snapSize acc d).1.add (snapAccumUpdate snapSize acc d).2) =
      acc.add d := by
  have hs : 0 < snapSize := lt_trans (by norm_num [kindaSmallNumber]) htol
  obtain ⟨ax, ay, az⟩ := acc
  obtain ⟨dx, dy, dz⟩ := d
  simp only [snapAccumUpdate, Vec3.add, if_pos hs]
  by_cases hnz : (⟨(axisSnap snapSize (ax + dx)).1, (axisSnap snapSize (ay + dy)).1,
      (axisSnap snapSize (az + dz)).1⟩ : Vec3).isNearlyZero
  · -- all emitted axes are below the tolerance, hence (being 0 or ≥ snapSize) zero
    rw [if_pos hnz]
    obtain ⟨h1, h2, h3⟩ := hnz
    simp only at h1 h2 h3
    have ex : (axisSnap snapSize (ax + dx)).1 = 0 := by
      rcases axisSnap_zero_or_big snapSize (ax + dx) hs with h | h
      · exact h
      · exfalso; linarith
    have ey : (axisSnap snapSize (ay + dy)).1 = 0 := by
      rcases axisSnap_zero_or_big snapSize (ay + dy) hs with h | h
      · exact h
      · exfalso; linarith
    have ez : (axisSnap snapSize (az + dz)).1 = 0 := by
      rcases axisSnap_zero_or_big snapSize (az + dz) hs with h | h
      · exact h
      · exfalso; linarith
    have rx := axisSnap_emit_zero snapSize (ax + dx) hs ex
    have ry := axisSnap_emit_zero snapSize (ay + dy) hs ey
    have rz := axisSnap_emit_zero snapSize (az + dz) hs ez
    simp only [Vec3.zero, Vec3.add, rx, ry, rz, Vec3.mk.injEq]
    exact ⟨by ring, by ring, by ring⟩
  · rw [if_neg hnz]
    have cx := axisSnap_conserves snapSize (ax + dx)
    have cy := axisSnap_conserves snapSize (ay + dy)
    have cz := axisSnap_conserves snapSize (az + dz)
    simp only [Vec3.add, Vec3.mk.injEq]
    exact ⟨cx, cy, cz⟩

theorem snapAccumUpdate_multiple (snapSize : ℚ) (acc d : Vec3) (hs : 0 < snapSize) :
    ∃ kx ky kz : ℤ,
      (snapAccumUpdate snapSize acc d).1 =
        ⟨kx * snapSize, ky * snapSize, kz * snapSize⟩ := by
  unfold snapAccumUpdate
  simp only [if_pos hs]
  set acc1 := acc.add d
  by_cases hnz : (⟨(axisSnap snapSize acc1.x).1, (axisSnap snapSize acc1.y).1,
      (axisSnap snapSize acc1.z).1⟩ : Vec3).isNearlyZero
  · refine ⟨0, 0, 0, ?_⟩
    simp only [if_pos hnz]
    simp [Vec3.zero]
  · obtain ⟨kx, hx⟩ := axisSnap_is_multiple snapSize acc1.x hs
    obtain ⟨ky, hy⟩ := axisSnap_is_multiple snapSize acc1.y hs
    obtain ⟨kz, hz⟩ := axisSnap_is_multiple snapSize acc1.z hs
    refine ⟨kx, ky, kz, ?_⟩
    simp only [if_neg hnz]
    rw [← hx, ← hy, ← hz]

theorem runSnapAccum_conserves (snapSize : ℚ) (htol : kindaSmallNumber < snapSize) :
    ∀ (ds : List Vec3) (acc : Vec3),
      (vsum (runSnapAccum snapSize acc ds).1).add (runSnapAccum snapSize acc ds).2 =
        acc.add (vsum ds) := by
  intro ds
  induction ds with
  | nil =>
    intro acc
    simp [runSnapAccum, vsum, Vec3.add, Vec3.zero]
  | cons d ds ih =>
    intro acc
    have hstep := snapAccumUpdate_conserves snapSize acc d htol
    have hrec := ih (snapAccumUpdate snapSize acc d).2
    simp only [runSnapAccum, vsum]
    calc ((snapAccumUpdate snapSize acc d).1.add
            (vsum (runSnapAccum snapSize (snapAccumUpdate snapSize acc d).2 ds).1)).add
            (runSnapAccum snapSize (snapAccumUpdate snapSize acc d).2 ds).2
        = (snapAccumUpdate snapSize acc d).1.add
            ((vsum (runSnapAccum snapSize (snapAccumUpdate snapSize acc d).2 ds).1).add
              (runSnapAccum snapSize (snapAccumUpdate snapSize acc d).2 ds).2) :=
          Vec3.add_assoc' _ _ _
      _ = (snapAccumUpdate snapSize acc d).1.add
            ((snapAccumUpdate snapSize acc d).2.add (vsum ds)) := by rw [hrec]
      _ = ((snapAccumUpdate snapSize acc d).1.add
            (snapAccumUpdate snapSize acc d).2).add (vsum ds) :=
          (Vec3.add_assoc' _ _ _).symm
      _ = (acc.add d).add (vsum ds) := by rw [hstep]
      _ = acc.add (d.add (vsum ds)) := Vec3.add_assoc' _ _ _

theorem runSnapAccum_multiples (snapSize : ℚ) (hs : 0 < snapSize) :
    ∀ (ds : List Vec3) (acc : Vec3),
      ∀ a ∈ (runSnapAccum snapSize acc ds).1,
        ∃ kx ky kz : ℤ, a = ⟨kx * snapSize, ky * snapSize, kz * snapSize⟩ := by
  intro ds
  induction ds with
  | nil => intro acc a ha; simp [runSnapAccum] at ha
  | cons d ds ih =>
    intro acc a ha
    simp only [runSnapAccum, List.mem_cons] at ha
    rcases ha with h | h
    · obtain ⟨kx, ky, kz, hk⟩ := snapAccumUpdate_multiple snapSize acc d hs
      exact ⟨kx, ky, kz, by rw [h, hk]⟩
    · exact ih _ a h

theorem Vec3.zero_add' (v : Vec3) : Vec3.zero.add v = v := by
  obtain ⟨x, y, z⟩ := v
  simp [Vec3.add, Vec3.zero]

/-- C1 (amended): for every sequence of per-frame world-space movement deltas
fed to the accumulate-and-snap block shared by MoveSelectedActorsHorizontal
and MoveSelectedActorsVertical, with grid snapping enabled at size S > 0 the
delta applied to the actors on each frame is an exact integer multiple of S on
each axis; and provided S exceeds the engine's nearly-zero tolerance 1e-4
(the amendment forced by c1_counterexample), the total applied movement plus
the residual left in AccumulatedMovement equals the total accumulated input
exactly. -/
theorem c1_grid_snap_residual (snapSize : ℚ) (hs : 0 < snapSize) (ds : List Vec3) :
    (∀ a ∈ (runSnapAccum snapSize Vec3.zero ds).1,
      ∃ kx ky kz : ℤ, a = ⟨kx * snapSize, ky * snapSize, kz * snapSize⟩) ∧
    (kindaSmallNumber < snapSize →
      (vsum (runSnapAccum snapSize Vec3.zero ds).1).add
        (runSnapAccum snapSize Vec3.zero ds).2 = vsum ds) := by
  constructor
  · exact runSnapAccum_multiples snapSize hs ds Vec3.zero
  · intro htol
    rw [runSnapAccum_conserves snapSize htol ds Vec3.zero]
    exact Vec3.zero_add' _

/-- Witness for C1 at snap size 1 and two concrete sub-grid frame deltas. -/
theorem c1_grid_snap_residual_witness :
    ((vsum (runSnapAccum 1 Vec3.zero [⟨3/2, 0, 0⟩, ⟨3/4, 0, 0⟩]).1).add
        (runSnapAccum 1 Vec3.zero [⟨3/2, 0, 0⟩, ⟨3/4, 0, 0⟩]).2 =
      vsum [⟨3/2, 0, 0⟩, ⟨3/4, 0, 0⟩]) ∧
    (∀ a ∈ (runSnapAccum 1 Vec3.zero [⟨3/2, 0, 0⟩, ⟨3/4, 0, 0⟩]).1,
      ∃ kx ky kz : ℤ, a = ⟨kx * 1, ky * 1, kz * 1⟩) :=
  ⟨(c1_grid_snap_residual 1 (by norm_num) [⟨3/2, 0, 0⟩, ⟨3/4, 0, 0⟩]).2
      (by norm_num [kindaSmallNumber]),
    (c1_grid_snap_residual 1 (by norm_num) [⟨3/2, 0, 0⟩, ⟨3/4, 0, 0⟩]).1⟩

set_option maxRecDepth 4000 in
/-- C1 counterexample: at grid size S = 1/10000 (allowed by the claim's
"S > 0"), twenty frames each accumulating exactly S are snapped, subtracted
from the residual, and then discarded by the ActualDelta.IsNearlyZero early
return of lines 707-710 / 830-833: the total applied movement and the final
residual are both zero while the accumulated input is 1/500, so "total applied
plus residual equals total input" fails by 1/500 — far beyond floating
tolerance. -/
theorem c1_counterexample :
    ¬ ((vsum (runSnapAccum (1/10000) Vec3.zero
          (List.replicate 20 ⟨1/10000, 0, 0⟩)).1).add
        (runSnapAccum (1/10000) Vec3.zero (List.replicate 20 ⟨1/10000, 0, 0⟩)).2 =
      vsum (List.replicate 20 ⟨1/10000, 0, 0⟩)) ∧
    vsum (runSnapAccum (1/10000) Vec3.zero (List.replicate 20 ⟨1/10000, 0, 0⟩)).1 =
      Vec3.zero ∧
    (runSnapAccum (1/10000) Vec3.zero (List.replicate 20 ⟨1/10000, 0, 0⟩)).2 =
      Vec3.zero ∧
    vsum (List.replicate 20 ⟨1/10000, 0, 0⟩) = ⟨1/500, 0, 0⟩ := by
  with_unfolding_all decide

theorem snapTraceLoop_accepts_blocking :
    ∀ (fuel : Nat) (hits : List Hit) (ignored : List Nat) (h : Hit),
      snapTraceLoop fuel hits ignored = some h →
      ∃ c, h.comp = some c ∧ blockingCollision c.collision = true := by
  intro fuel
  induction fuel with
  | zero =>
    intro hits ignored h hh
    simp [snapTraceLoop] at hh
  | succ n ih =>
    intro hits ignored h hh
    unfold snapTraceLoop at hh
    cases hfind : lineTraceVisibility hits ignored with
    | none => rw [hfind] at hh; exact absurd hh (by simp)
    | some h0 =>
      obtain ⟨comp0, z0, n0⟩ := h0
      rw [hfind] at hh
      cases comp0 with
      | some c =>
        dsimp only at hh
        by_cases hb : blockingCollision c.collision = true
        · rw [if_pos hb] at hh
          injection hh with hh0
          exact ⟨c, by rw [← hh0], hb⟩
        · rw [if_neg hb] at hh
          exact ih hits _ h hh
      | none =>
        dsimp only at hh
        exact ih hits ignored h hh

/-- C5: the re-cast loop of the ground snap never accepts a hit whose
component is missing or whose collision mode is neither QueryAndPhysics nor
PhysicsOnly: (1) any hit the loop returns carries a component with blocking
collision; (2) on a non-blocking hit the loop adds the hit component to the
ignore set and re-casts, consuming one of its (at most 50) attempts; (3) the
per-actor ground snap repositions the actor only when the loop found a
blocking hit. -/
theorem c5_ground_snap_skips_nonblocking :
    (∀ (fuel : Nat) (hits : List Hit) (ignored : List Nat) (h : Hit),
      snapTraceLoop fuel hits ignored = some h →
      ∃ c, h.comp = some c ∧ blockingCollision c.collision = true) ∧
    (∀ (fuel : Nat) (hits : List Hit) (ignored : List Nat) (h : Hit) (c : HitComp),
      lineTraceVisibility hits ignored = some h → h.comp = some c →
      blockingCollision c.collision = false →
      snapTraceLoop (fuel + 1) hits ignored =
        snapTraceLoop fuel hits (c.compId :: ignored)) ∧
    (∀ (align : Vec3 → Vec3 → Vec3) (hits : List Hit) (offt : ℚ) (a a' : Actor),
      snapGroundActor align hits offt a = some a' →
      ∃ h c, snapTraceLoop raycastAttemptCap hits [] = some h ∧
        h.comp = some c ∧ blockingCollision c.collision = true) := by
  refine ⟨snapTraceLoop_accepts_blocking, ?_, ?_⟩
  · intro fuel hits ignored h c hfind hcomp hnb
    obtain ⟨comp0, z0, n0⟩ := h
    obtain rfl : comp0 = some c := by simpa using hcomp
    conv_lhs => unfold snapTraceLoop
    rw [hfind]
    dsimp only
    rw [if_neg (by simp [hnb])]
  · intro align hits offt a a' hsnap
    unfold snapGroundActor at hsnap
    cases hloop : snapTraceLoop raycastAttemptCap hits [] with
    | none => rw [hloop] at hsnap; exact absurd hsnap (by simp)
    | some h =>
      obtain ⟨c, hc, hb⟩ := snapTraceLoop_accepts_blocking raycastAttemptCap hits [] h hloop
      exact ⟨h, c, rfl, hc, hb⟩

/-- Witness for C5: below an actor lie a query-only component and, deeper, a
blocking one; the loop skips the query-only hit and accepts the blocking one,
which indeed carries QueryAndPhysics collision. -/
theorem c5_ground_snap_skips_nonblocking_witness :
    ∃ c, hitBlocking.comp = some c ∧ blockingCollision c.collision = true :=
  c5_ground_snap_skips_nonblocking.1 raycastAttemptCap [hitQueryOnly, hitBlocking]
    [] hitBlocking (by with_unfolding_all decide)

/-- C4: paste overwrites each selected actor's location and rotation with the
copied values and leaves its scale exactly as it was, and on any failed guard
the selection is returned unchanged, so the scale is preserved in every case. -/
theorem c4_paste_preserves_scale (gEditorOk : Bool) (sel : Selection)
    (st : CPState) (i : Nat) (a : Actor) (ha : sel[i]? = some (some a)) :
    ∃ a', (pasteTransformToSelected gEditorOk sel st).1[i]? = some (some a') ∧
      a'.scale = a.scale ∧
      (gEditorOk = true → st.bHasCopiedTransform = true →
        a'.location = st.copiedTransform.loc ∧
        a'.rotation = st.copiedTransform.rot) := by
  unfold pasteTransformToSelected
  by_cases h1 : (!gEditorOk || !st.bHasCopiedTransform) = true
  · rw [if_pos h1]
    refine ⟨a, ha, rfl, ?_⟩
    intro hg hc
    rw [hg, hc] at h1
    simp at h1
  · rw [if_neg h1]
    by_cases h2 : sel = []
    · subst h2; simp at ha
    · rw [if_neg h2]
      simp only
      refine ⟨{ a with location := st.copiedTransform.loc,
                       rotation := st.copiedTransform.rot }, ?_, rfl,
              fun _ _ => ⟨rfl, rfl⟩⟩
      rw [List.getElem?_map, ha]
      rfl

/-- Witness for C4 at a concrete one-actor selection and copied transform. -/
theorem c4_paste_preserves_scale_witness :
    ∃ a', (pasteTransformToSelected true [some actorScaled]
        { bHasCopiedTransform := true }).1[0]? = some (some a') ∧
      a'.scale = actorScaled.scale ∧
      (true = true →
        ({ bHasCopiedTransform := true } : CPState).bHasCopiedTransform = true →
        a'.location = ({ bHasCopiedTransform := true } : CPState).copiedTransform.loc ∧
        a'.rotation = ({ bHasCopiedTransform := true } : CPState).copiedTransform.rot) :=
  c4_paste_preserves_scale true [some actorScaled] { bHasCopiedTransform := true }
    0 actorScaled (by with_unfolding_all decide)

/-- C7 counterexample: two selections whose first actors agree in location and
rotation and differ only in scale produce different copied-transform
snapshots, and the snapshot records the copied actor's scale (2,3,4) — the
snapshot does carry scale information, because CopySelectedTransform stores
the full GetActorTransform(). -/
theorem c7_counterexample :
    copySelectedTransform true [some actorUnit] {} ≠
      copySelectedTransform true [some actorScaled] {} ∧
    (copySelectedTransform true [some actorScaled] {}).copiedTransform.scale3D =
      ⟨2, 3, 4⟩ := by
  with_unfolding_all decide

/-- C7 (amended): copy stores the first selected actor's location and rotation
— and also its scale — into the snapshot; the scale component of the snapshot
is nevertheless never consumed: paste's result depends only on the snapshot's
location and rotation (and the has-copied flag). -/
theorem c7_copy_records_loc_rot (sel : Selection) (st : CPState) (a : Actor)
    (hhead : sel.head? = some (some a)) :
    copySelectedTransform true sel st =
      { st with copiedTransform := ⟨a.location, a.rotation, a.scale⟩,
                bHasCopiedTransform := true } ∧
    (∀ (gEd : Bool) (sel' : Selection) (st₁ st₂ : CPState),
      st₁.copiedTransform.loc = st₂.copiedTransform.loc →
      st₁.copiedTransform.rot = st₂.copiedTransform.rot →
      st₁.bHasCopiedTransform = st₂.bHasCopiedTransform →
      pasteTransformToSelected gEd sel' st₁ = pasteTransformToSelected gEd sel' st₂) := by
  constructor
  · cases sel with
    | nil => simp at hhead
    | cons o rest =>
      obtain rfl : o = some a := by simpa using hhead
      simp [copySelectedTransform]
  · intro gEd sel' st₁ st₂ h1 h2 h3
    unfold pasteTransformToSelected
    rw [h1, h2, h3]

/-- Witness for C7's amended theorem at a concrete selection. -/
theorem c7_copy_records_loc_rot_witness :
    copySelectedTransform true [some actorScaled] {} =
      { ({} : CPState) with
          copiedTransform :=
            ⟨actorScaled.location, actorScaled.rotation, actorScaled.scale⟩,
          bHasCopiedTransform := true } ∧
    (∀ (gEd : Bool) (sel' : Selection) (st₁ st₂ : CPState),
      st₁.copiedTransform.loc = st₂.copiedTransform.loc →
      st₁.copiedTransform.rot = st₂.copiedTransform.rot →
      st₁.bHasCopiedTransform = st₂.bHasCopiedTransform →
      pasteTransformToSelected gEd sel' st₁ = pasteTransformToSelected gEd sel' st₂) :=
  c7_copy_records_loc_rot [some actorScaled] {} actorScaled (by rfl)

/-- C10: the Ctrl+C branch of the copy/paste key handler never consumes the
event, whatever the context and state; and with an empty selection or a
non-actor first selected object, CopySelectedTransform leaves the whole
static state (snapshot and has-copied flag) unchanged. -/
theorem c10_copy_never_consumes :
    (∀ (env : CPEnv) (st : CPState) (ev : CPKeyEvent), ev.key = CPKey.keyC →
      (cpHandleKeyDown env st ev).2.2.2 = false) ∧
    (∀ (gEd : Bool) (sel : Selection) (st : CPState),
      sel = [] ∨ sel.head? = some none →
      copySelectedTransform gEd sel st = st) := by
  constructor
  · intro env st ev hk
    unfold cpHandleKeyDown
    by_cases hp : env.play = true
    · rw [if_pos hp]
    · rw [if_neg hp, if_neg (by simp [hk]), ]
      by_cases hc : ev.ctrl = false
      · rw [if_pos hc]
      · rw [if_neg hc, if_pos hk]
  · intro gEd sel st hsel
    rcases hsel with rfl | hhead
    · unfold copySelectedTransform
      by_cases hg : (!gEd) = true
      · rw [if_pos hg]
      · rw [if_neg hg, if_pos rfl]
    · cases sel with
      | nil => simp at hhead
      | cons o rest =>
        obtain rfl : o = none := by simpa using hhead
        unfold copySelectedTransform
        by_cases hg : (!gEd) = true
        · rw [if_pos hg]
        · rw [if_neg hg, if_neg (by simp)]
          rfl

/-- Witness for C10 at a concrete Ctrl+C event and a non-actor selection. -/
theorem c10_copy_never_consumes_witness :
    (cpHandleKeyDown
        ⟨false, true, true, [none], fun _ => [], fun _ => 0, fun _ r => r, [], none, []⟩
        {} ⟨CPKey.keyC, true, false⟩).2.2.2 = false ∧
    copySelectedTransform true [none] {} = {} :=
  ⟨c10_copy_never_consumes.1
      ⟨false, true, true, [none], fun _ => [], fun _ => 0, fun _ r => r, [], none, []⟩
      {} ⟨CPKey.keyC, true, false⟩ rfl,
    c10_copy_never_consumes.2 true [none] {} (Or.inr rfl)⟩

theorem shortcutTick_dispatch (env : MoveEnv) (ctx : Ctx) (s : SState) (pos : Vec2) :
    (shortcutTick env ctx s pos).2 =
      if ctx.play = true then none
      else if (s.bQKeyDown || s.bEKeyDown || s.bRKeyDown) = true then
        (if (pos.sub s.lastMousePosition).isNearlyZero then none
         else if s.bQKeyDown = true then some DragOp.horizontal
         else if s.bEKeyDown = true then some DragOp.vertical
         else if s.bRKeyDown = true then some DragOp.scaleUniform
         else none)
      else none := by
  by_cases hp : ctx.play = true
  · simp [shortcutTick, hp]
  · by_cases hh : (s.bQKeyDown || s.bEKeyDown || s.bRKeyDown) = true
    · by_cases hz : (pos.sub s.lastMousePosition).isNearlyZero
      · by_cases hc : s.bCursorHidden = true <;>
          simp [shortcutTick, hp, hh, hz, hc]
      · by_cases hc : s.bCursorHidden = true <;>
        by_cases hq : s.bQKeyDown = true <;>
        by_cases he : s.bEKeyDown = true <;>
        by_cases hr : s.bRKeyDown = true <;>
          simp [shortcutTick, hp, hh, hz, hc, hq, he, hr]
    · simp [shortcutTick, hp, hh]

/-- C8: each frame tick dispatches at most one transform operation, chosen by
the fixed priority Q over E over R: while Q is held the tick never applies the
vertical move or the uniform scale; while E is held (and Q is not) it never
applies the horizontal move or the scale; while only R is held it never
applies a move; and outside Play, on a non-negligible cursor delta, the held
keys determine exactly which single operation runs. -/
theorem c8_tick_priority (env : MoveEnv) (ctx : Ctx) (s : SState) (pos : Vec2) :
    (s.bQKeyDown = true →
      (shortcutTick env ctx s pos).2 ≠ some DragOp.vertical ∧
      (shortcutTick env ctx s pos).2 ≠ some DragOp.scaleUniform) ∧
    (s.bQKeyDown = false → s.bEKeyDown = true →
      (shortcutTick env ctx s pos).2 ≠ some DragOp.horizontal ∧
      (shortcutTick env ctx s pos).2 ≠ some DragOp.scaleUniform) ∧
    (s.bQKeyDown = false → s.bEKeyDown = false →
      (shortcutTick env ctx s pos).2 ≠ some DragOp.horizontal ∧
      (shortcutTick env ctx s pos).2 ≠ some DragOp.vertical) ∧
    (ctx.play = false → ¬(pos.sub s.lastMousePosition).isNearlyZero →
      (s.bQKeyDown = true →
        (shortcutTick env ctx s pos).2 = some DragOp.horizontal) ∧
      (s.bQKeyDown = false → s.bEKeyDown = true →
        (shortcutTick env ctx s pos).2 = some DragOp.vertical) ∧
      (s.bQKeyDown = false → s.bEKeyDown = false → s.bRKeyDown = true →
        (shortcutTick env ctx s pos).2 = some DragOp.scaleUniform)) := by
  rw [shortcutTick_dispatch]
  refine ⟨?_, ?_, ?_, ?_⟩
  · intro hq
    constructor <;> split_ifs <;> simp_all
  · intro hq he
    constructor <;> split_ifs <;> simp_all
  · intro hq he
    constructor <;> split_ifs <;> simp_all
  · intro hp hz
    refine ⟨fun hq => ?_, fun hq he => ?_, fun hq he hr => ?_⟩ <;>
      split_ifs <;> simp_all

/-- Witness for C8: with Q and E both held, outside Play, on a (10,0) cursor
delta, the tick applies the horizontal move (and neither of the others). -/
theorem c8_tick_priority_witness :
    (shortcutTick envGood ctxGood
        { sStartOne with bQKeyDown := true, bEKeyDown := true } ⟨10, 0⟩).2 ≠
      some DragOp.vertical ∧
    (shortcutTick envGood ctxGood
        { sStartOne with bQKeyDown := true, bEKeyDown := true } ⟨10, 0⟩).2 ≠
      some DragOp.scaleUniform ∧
    (shortcutTick envGood ctxGood
        { sStartOne with bQKeyDown := true, bEKeyDown := true } ⟨10, 0⟩).2 =
      some DragOp.horizontal :=
  ⟨(c8_tick_priority envGood ctxGood
      { sStartOne with bQKeyDown := true, bEKeyDown := true } ⟨10, 0⟩).1 rfl |>.1,
   (c8_tick_priority envGood ctxGood
      { sStartOne with bQKeyDown := true, bEKeyDown := true } ⟨10, 0⟩).1 rfl |>.2,
   ((c8_tick_priority envGood ctxGood
      { sStartOne with bQKeyDown := true, bEKeyDown := true } ⟨10, 0⟩).2.2.2 rfl
      (by with_unfolding_all decide)).1 rfl⟩

/-- C9 (amended): during a Play session the shortcut processor's tick and its
key handlers, and the copy/paste processor's key handler, do nothing: no state
change, no dispatched operation, no transaction, no consumed event.  (The
copy/paste processor's Tick is NOT guarded — see c9_counterexample — which is
the amendment.) -/
theorem c9_play_disables_processing (env : MoveEnv) (ctx : Ctx) (s : SState)
    (pos : Vec2) (k : SKey) (cenv : CPEnv) (cst : CPState) (ev : CPKeyEvent)
    (hplay : ctx.play = true) (hcplay : cenv.play = true) :
    shortcutTick env ctx s pos = (s, none) ∧
    shortcutKeyDown ctx s k pos = (s, false) ∧
    shortcutKeyUp ctx s k = (s, false) ∧
    cpHandleKeyDown cenv cst ev = (cst, cenv.selection, noEffects, false) := by
  refine ⟨?_, ?_, ?_, ?_⟩ <;>
    simp [shortcutTick, shortcutKeyDown, shortcutKeyUp, cpHandleKeyDown, hplay, hcplay]

/-- Witness for C9's amended theorem at concrete Play-session inputs. -/
theorem c9_play_disables_processing_witness :
    shortcutTick envGood ctxPlay sStartOne ⟨5, 5⟩ = (sStartOne, none) ∧
    shortcutKeyDown ctxPlay sStartOne SKey.keyQ ⟨0, 0⟩ = (sStartOne, false) ∧
    shortcutKeyUp ctxPlay sStartOne SKey.keyQ = (sStartOne, false) ∧
    cpHandleKeyDown cpEnvPlayPending {} ⟨CPKey.keyC, true, false⟩ =
      ({}, cpEnvPlayPending.selection, noEffects, false) :=
  c9_play_disables_processing envGood ctxPlay sStartOne ⟨5, 5⟩ SKey.keyQ
    cpEnvPlayPending {} ⟨CPKey.keyC, true, false⟩ rfl rfl

/-- C9 counterexample: the copy/paste processor's Tick (lines 60-68 of
TransformCopyPasteProcessor.cpp) has no Play-session guard.  In a state where
Ctrl+Shift+V set up a deferred paste-to-folder just before the Play session
began, the first tick inside the Play session (host reports play = true)
completes the paste-to-folder and opens its undo transaction — contradicting
"for every tick ... during a Play session ... no transaction is opened". -/
theorem c9_counterexample :
    cpEnvPlayPending.play = true ∧
    (cpTick cpEnvPlayPending cpStatePending).2 = true := by
  with_unfolding_all decide

/-- C6 (amended): the guard failures — missing GEditor, empty selection,
missing viewport client or world, and a Play session — abort each operation
with no state change, no actor modified and no transaction opened; a failed
raycast in the ground snap likewise modifies no actor and reports failure,
BUT the enclosing operation has already opened (and then closes) its scoped
transaction before the per-actor raycasts — the amendment forced by
c6_counterexample. -/
theorem c6_failures_are_noops :
    (∀ (env : MoveEnv) (s : SState) (d : Vec2),
      env.gEditorOk = false ∨ s.selection = [] ∨ env.viewportOk = false →
      moveSelectedActorsHorizontal env s d = s) ∧
    (∀ (env : MoveEnv) (s : SState) (dy : ℚ),
      env.gEditorOk = false ∨ s.selection = [] ∨ env.viewportOk = false →
      moveSelectedActorsVertical env s dy = s) ∧
    (∀ (gEd : Bool) (sel : Selection) (st : CPState),
      gEd = false ∨ st.bHasCopiedTransform = false ∨ sel = [] →
      pasteTransformToSelected gEd sel st = (sel, false, false)) ∧
    (∀ (align : Vec3 → Vec3 → Vec3) (env : CPEnv),
      env.gEditorOk = false ∨ env.selection = [] ∨ env.worldOk = false →
      snapSelectedToGroundWith align env = (env.selection, false, false)) ∧
    (∀ (align : Vec3 → Vec3 → Vec3) (env : CPEnv),
      env.gEditorOk = true → env.selection ≠ [] → env.worldOk = true →
      (∀ a : Actor, snapTraceLoop raycastAttemptCap (env.rayHits a) [] = none) →
      (snapSelectedToGroundWith align env).1 = env.selection ∧
      (snapSelectedToGroundWith align env).2.2 = false ∧
      (snapSelectedToGroundWith align env).2.1 = true) ∧
    (∀ (env : MoveEnv) (ctx : Ctx) (s : SState) (pos : Vec2), ctx.play = true →
      shortcutTick env ctx s pos = (s, none)) := by
  refine ⟨?_, ?_, ?_, ?_, ?_, ?_⟩
  · intro env s d h
    rcases h with h | h | h <;> simp [moveSelectedActorsHorizontal, h]
  · intro env s dy h
    rcases h with h | h | h <;> simp [moveSelectedActorsVertical, h]
  · intro gEd sel st h
    rcases h with h | h | h <;> simp [pasteTransformToSelected, h]
  · intro align env h
    rcases h with h | h | h <;> simp [snapSelectedToGroundWith, h]
  · intro align env hg hsel hw hray
    have hnone : ∀ a : Actor,
        snapGroundActor align (env.rayHits a) (env.meshBottomOffset a) a = none := by
      intro a
      unfold snapGroundActor
      rw [hray a]
    unfold snapSelectedToGroundWith
    rw [if_neg (by simp [hg]), if_neg hsel, if_neg (by simp [hw])]
    refine ⟨?_, ?_, rfl⟩
    · show env.selection.map _ = env.selection
      have heach : ∀ o ∈ env.selection,
          (fun (o : Option Actor) => match o with
            | none => none
            | some a =>
              match snapGroundActor align (env.rayHits a) (env.meshBottomOffset a) a with
              | some a' => some a'
              | none => some a) o = id o := by
        intro o _
        cases o with
        | none => rfl
        | some a => simp [hnone a]
      rw [List.map_congr_left heach, List.map_id]
    · show decide (0 < env.selection.countP _) = false
      have hcount : env.selection.countP (fun o => match o with
          | some a => (snapGroundActor align (env.rayHits a) (env.meshBottomOffset a) a).isSome
          | none => false) = 0 := by
        rw [List.countP_eq_zero]
        intro o _
        cases o with
        | none => simp
        | some a => simp [hnone a]
      rw [hcount]
      rfl
  · intro env ctx s pos hp
    simp [shortcutTick, hp]

/-- Witness for C6 at concrete failing inputs: the horizontal move with no
viewport client changes nothing, and paste with nothing copied changes
nothing. -/
theorem c6_failures_are_noops_witness :
    moveSelectedActorsHorizontal envNoViewport sStartOne ⟨10, 0⟩ = sStartOne ∧
    pasteTransformToSelected true [some actorUnit] {} =
      ([some actorUnit], false, false) :=
  ⟨c6_failures_are_noops.1 envNoViewport sStartOne ⟨10, 0⟩ (Or.inr (Or.inr rfl)),
    c6_failures_are_noops.2.2.1 true [some actorUnit] {} (Or.inr (Or.inl rfl))⟩

/-- C6 counterexample: an invocation of SnapSelectedToGround whose raycast
finds no ground (host singletons present, one selected actor, empty ray
result) modifies no actor and reports failure, yet DOES open the scoped undo
transaction (constructed at line 259, before the per-actor raycast loop) —
contradicting "a failed raycast ... returns control ... without opening an
undo transaction". -/
theorem c6_counterexample :
    (snapSelectedToGround cpEnvRayFail).2.1 = true ∧
    (snapSelectedToGround cpEnvRayFail).1 = cpEnvRayFail.selection ∧
    (snapSelectedToGround cpEnvRayFail).2.2 = false := by
  with_unfolding_all decide

theorem selActors_cons_none (rest : Selection) :
    selActors (none :: rest) = selActors rest := by
  simp [selActors]

theorem selActors_cons_some (a : Actor) (rest : Selection) :
    selActors (some a :: rest) = a :: selActors rest := by
  simp [selActors]

theorem radialSum_cons (d : Vec2) (ds : List Vec2) :
    radialSum (d :: ds) = (d.x - d.y) + radialSum ds := by
  simp [radialSum]

theorem applyScaleSnapshot_length :
    ∀ (sel : Selection) (snaps : List Vec3) (m : ℚ),
      (applyScaleSnapshot sel snaps m).length = sel.length := by
  intro sel
  induction sel with
  | nil => intro snaps m; rfl
  | cons o rest ih =>
    intro snaps m
    cases o with
    | none => simp [applyScaleSnapshot, ih]
    | some a =>
      cases snaps with
      | nil => simp [applyScaleSnapshot, ih]
      | cons sv svs => simp [applyScaleSnapshot, ih]

theorem applyScaleSnapshot_comp :
    ∀ (sel : Selection) (snaps : List Vec3) (m m' : ℚ),
      applyScaleSnapshot (applyScaleSnapshot sel snaps m) snaps m' =
        applyScaleSnapshot sel snaps m' := by
  intro sel
  induction sel with
  | nil => intro snaps m m'; rfl
  | cons o rest ih =>
    intro snaps m m'
    cases o with
    | none =>
      show applyScaleSnapshot (none :: applyScaleSnapshot rest snaps m) snaps m' = _
      show none :: applyScaleSnapshot (applyScaleSnapshot rest snaps m) snaps m' = _
      rw [ih]
      rfl
    | some a =>
      cases snaps with
      | nil =>
        show some a :: applyScaleSnapshot (applyScaleSnapshot rest [] m) [] m' = _
        rw [ih]
        rfl
      | cons sv svs =>
        show some _ :: applyScaleSnapshot (applyScaleSnapshot rest svs m) svs m' = _
        rw [ih]
        rfl

theorem applyScaleSnapshot_one (sel : Selection)
    (hb : ∀ a ∈ selActors sel,
      1/1000 ≤ a.scale.x ∧ 1/1000 ≤ a.scale.y ∧ 1/1000 ≤ a.scale.z) :
    applyScaleSnapshot sel ((selActors sel).map (fun a => a.scale)) 1 = sel := by
  induction sel with
  | nil => rfl
  | cons o rest ih =>
    cases o with
    | none =>
      rw [selActors_cons_none] at hb ⊢
      show none :: applyScaleSnapshot rest ((selActors rest).map (fun a => a.scale)) 1 = _
      rw [ih hb]
    | some a =>
      rw [selActors_cons_some] at hb
      have hba := hb a (List.mem_cons_self a _)
      have hbrest : ∀ b ∈ selActors rest,
          1/1000 ≤ b.scale.x ∧ 1/1000 ≤ b.scale.y ∧ 1/1000 ≤ b.scale.z :=
        fun b hbmem => hb b (List.mem_cons_of_mem a hbmem)
      rw [selActors_cons_some, List.map_cons]
      show some { a with scale := (a.scale.smul 1).componentMax ⟨1/1000, 1/1000, 1/1000⟩ } ::
        applyScaleSnapshot rest ((selActors rest).map (fun b => b.scale)) 1 = _
      rw [ih hbrest]
      have hscale : (a.scale.smul 1).componentMax ⟨1/1000, 1/1000, 1/1000⟩ = a.scale := by
        simp only [Vec3.smul, Vec3.componentMax, mul_one]
        calc (⟨max a.scale.x (1/1000), max a.scale.y (1/1000),
                max a.scale.z (1/1000)⟩ : Vec3)
            = ⟨a.scale.x, a.scale.y, a.scale.z⟩ := by
              rw [max_eq_left hba.1, max_eq_left hba.2.1, max_eq_left hba.2.2]
          _ = a.scale := rfl
      rw [hscale]

theorem scaleStep_noop_guard (env : MoveEnv) (s : SState) (d : Vec2)
    (h : env.gEditorOk = false ∨ s.selection = []) :
    scaleSelectedActorsUniform env s d = s := by
  rcases h with h | h <;> simp [scaleSelectedActorsUniform, h]

theorem runScaleDrag_noop_guard (env : MoveEnv) (s : SState) (ds : List Vec2)
    (h : env.gEditorOk = false ∨ s.selection = []) :
    runScaleDrag env s ds = s := by
  induction ds with
  | nil => rfl
  | cons d ds ih =>
    show runScaleDrag env (scaleSelectedActorsUniform env s d) ds = s
    rw [scaleStep_noop_guard env s d h]
    exact ih

theorem scaleStep_mid_fields (env : MoveEnv) (s : SState) (d : Vec2)
    (henv : env.snapScaleEnabled = false) (hg : env.gEditorOk = true)
    (hinit : s.bDragInitialized = true) (hsel : s.selection ≠ []) :
    scaleSelectedActorsUniform env s d =
      { s with totalScaleDelta := s.totalScaleDelta + (d.x - d.y) * (1/250),
               selection := applyScaleSnapshot s.selection s.scaleDragInitialScales
                 (max (1 + (s.totalScaleDelta + (d.x - d.y) * (1/250))) (1/100)) } := by
  unfold scaleSelectedActorsUniform
  rw [if_neg (by simp [hg]), if_neg hsel,
    if_neg (show ¬(!s.bDragInitialized) = true by simp [hinit])]
  simp only [henv, Bool.false_eq_true, if_false]

theorem scaleStep_first_fields (env : MoveEnv) (s : SState) (d : Vec2)
    (henv : env.snapScaleEnabled = false) (hg : env.gEditorOk = true)
    (hinit : s.bDragInitialized = false) (hsel : s.selection ≠ []) :
    (scaleSelectedActorsUniform env s d).bDragInitialized = true ∧
    (scaleSelectedActorsUniform env s d).scaleDragInitialScales =
      (selActors s.selection).map (fun a => a.scale) ∧
    (scaleSelectedActorsUniform env s d).totalScaleDelta =
      s.totalScaleDelta + (d.x - d.y) * (1/250) ∧
    (scaleSelectedActorsUniform env s d).selection =
      applyScaleSnapshot s.selection ((selActors s.selection).map (fun a => a.scale))
        (max (1 + (s.totalScaleDelta + (d.x - d.y) * (1/250))) (1/100)) := by
  unfold scaleSelectedActorsUniform
  rw [if_neg (by simp [hg]), if_neg hsel,
    if_pos (show (!s.bDragInitialized) = true by simp [hinit])]
  simp only [henv, Bool.false_eq_true, if_false]
  unfold ensureDragTransaction
  by_cases hopen : s.dragTransactionOpen = true <;> simp [hopen]

theorem runScaleDrag_mid (env : MoveEnv) (henv : env.snapScaleEnabled = false)
    (hg : env.gEditorOk = true) (sel0 : Selection) (scales0 : List Vec3)
    (hsel0 : sel0 ≠ []) :
    ∀ (ds : List Vec2) (s : SState), s.bDragInitialized = true →
      s.scaleDragInitialScales = scales0 →
      s.selection = applyScaleSnapshot sel0 scales0
        (max (1 + s.totalScaleDelta) (1/100)) →
      (runScaleDrag env s ds).selection =
        applyScaleSnapshot sel0 scales0
          (max (1 + (s.totalScaleDelta + radialSum ds * (1/250))) (1/100)) := by
  intro ds
  induction ds with
  | nil =>
    intro s _ _ hsel
    show s.selection = _
    rw [hsel]
    have harg : s.totalScaleDelta + radialSum [] * (1/250) = s.totalScaleDelta := by
      simp [radialSum]
    rw [harg]
  | cons d ds' ih =>
    intro s hinit hsnaps hsel
    have hne : s.selection ≠ [] := by
      rw [hsel]
      intro hcontra
      apply hsel0
      have := applyScaleSnapshot_length sel0 scales0
        (max (1 + s.totalScaleDelta) (1/100))
      rw [hcontra] at this
      exact List.eq_nil_of_length_eq_zero this.symm
    have hstep := scaleStep_mid_fields env s d henv hg hinit hne
    show (runScaleDrag env (scaleSelectedActorsUniform env s d) ds').selection = _
    rw [hstep]
    have hrec := ih { s with
        totalScaleDelta := s.totalScaleDelta + (d.x - d.y) * (1/250),
        selection := applyScaleSnapshot s.selection s.scaleDragInitialScales
          (max (1 + (s.totalScaleDelta + (d.x - d.y) * (1/250))) (1/100)) }
      hinit hsnaps (by
        show applyScaleSnapshot s.selection s.scaleDragInitialScales _ =
          applyScaleSnapshot sel0 scales0 _
        rw [hsel, hsnaps, applyScaleSnapshot_comp])
    rw [hrec]
    have harg : s.totalScaleDelta + (d.x - d.y) * (1/250) + radialSum ds' * (1/250) =
        s.totalScaleDelta + radialSum (d :: ds') * (1/250) := by
      rw [radialSum_cons]; ring
    rw [harg]

theorem runScaleDrag_clean_sel (env : MoveEnv) (henv : env.snapScaleEnabled = false)
    (hg : env.gEditorOk = true) (s0 : SState) (hinit : s0.bDragInitialized = false)
    (htot : s0.totalScaleDelta = 0) (hsel : s0.selection ≠ []) (ds : List Vec2) :
    (runScaleDrag env s0 ds).selection =
      if ds = [] then s0.selection
      else applyScaleSnapshot s0.selection
        ((selActors s0.selection).map (fun a => a.scale))
        (max (1 + radialSum ds * (1/250)) (1/100)) := by
  cases ds with
  | nil => rfl
  | cons d ds' =>
    rw [if_neg (by simp)]
    obtain ⟨h1, h2, h3, h4⟩ := scaleStep_first_fields env s0 d henv hg hinit hsel
    show (runScaleDrag env (scaleSelectedActorsUniform env s0 d) ds').selection = _
    have hrec := runScaleDrag_mid env henv hg s0.selection
      ((selActors s0.selection).map (fun a => a.scale)) hsel ds'
      (scaleSelectedActorsUniform env s0 d) h1 h2 (by rw [h4, h3])
    rw [hrec, h3, htot]
    have harg : 0 + (d.x - d.y) * (1/250) + radialSum ds' * (1/250) =
        radialSum (d :: ds') * (1/250) := by
      rw [radialSum_cons]; ring
    rw [harg]

/-- C2 (amended): during an R-drag with scale snapping disabled the applied
scale is always the drag-start snapshot times a multiplier derived from the
ACCUMULATED (deltaX - deltaY) sum — never compounded onto the previous frame's
scale — so two delta sequences with equal sums leave the selection identical;
and any sequence whose sum returns to zero restores every actor exactly to its
pre-drag scale, PROVIDED each component of each selected actor's pre-drag
scale is at least the clamp floor 0.001 (the amendment forced by
c2_counterexample). -/
theorem c2_scale_snapshot_not_compounded (env : MoveEnv) (s0 : SState)
    (henv : env.snapScaleEnabled = false)
    (hinit : s0.bDragInitialized = false) (htot : s0.totalScaleDelta = 0)
    (hb : ∀ a ∈ selActors s0.selection,
      1/1000 ≤ a.scale.x ∧ 1/1000 ≤ a.scale.y ∧ 1/1000 ≤ a.scale.z) :
    (∀ ds : List Vec2, radialSum ds = 0 →
      (runScaleDrag env s0 ds).selection = s0.selection) ∧
    (∀ ds₁ ds₂ : List Vec2, radialSum ds₁ = radialSum ds₂ →
      (runScaleDrag env s0 ds₁).selection = (runScaleDrag env s0 ds₂).selection) := by
  by_cases hguard : env.gEditorOk = false ∨ s0.selection = []
  · constructor
    · intro ds _
      rw [runScaleDrag_noop_guard env s0 ds hguard]
    · intro ds₁ ds₂ _
      rw [runScaleDrag_noop_guard env s0 ds₁ hguard,
        runScaleDrag_noop_guard env s0 ds₂ hguard]
  · push_neg at hguard
    obtain ⟨hg', hsel⟩ := hguard
    have hg : env.gEditorOk = true := by
      cases henum : env.gEditorOk
      · exact absurd henum hg'
      · rfl
    have hone : ∀ ds : List Vec2, radialSum ds = 0 →
        (runScaleDrag env s0 ds).selection = s0.selection := by
      intro ds hzero
      rw [runScaleDrag_clean_sel env henv hg s0 hinit htot hsel ds]
      by_cases hds : ds = []
      · rw [if_pos hds]
      · rw [if_neg hds, hzero]
        have hm : max (1 + (0:ℚ) * (1/250)) (1/100) = 1 := by
          rw [show (1:ℚ) + 0 * (1/250) = 1 by ring]
          exact max_eq_left (by norm_num)
        rw [hm, applyScaleSnapshot_one s0.selection hb]
    constructor
    · exact hone
    · intro ds₁ ds₂ hsum
      by_cases h1 : ds₁ = []
      · by_cases h2 : ds₂ = []
        · rw [h1, h2]
        · subst h1
          have hz2 : radialSum ds₂ = 0 := by
            rw [← hsum]; simp [radialSum]
          rw [hone ds₂ hz2]
          rfl
      · by_cases h2 : ds₂ = []
        · subst h2
          have hz1 : radialSum ds₁ = 0 := by
            rw [hsum]; simp [radialSum]
          rw [hone ds₁ hz1]
          rfl
        · rw [runScaleDrag_clean_sel env henv hg s0 hinit htot hsel ds₁,
            runScaleDrag_clean_sel env henv hg s0 hinit htot hsel ds₂,
            if_neg h1, if_neg h2, hsum]

set_option maxRecDepth 8000 in
/-- Witness for C2: a zero-sum two-frame drag on a unit-scaled actor returns
the selection exactly to its initial state, and equal-sum drags agree. -/
theorem c2_scale_snapshot_not_compounded_witness :
    (runScaleDrag envGood sStartOne [⟨5, 0⟩, ⟨0, 5⟩]).selection =
      sStartOne.selection ∧
    (runScaleDrag envGood sStartOne [⟨5, 0⟩, ⟨0, 5⟩]).selection =
      (runScaleDrag envGood sStartOne [⟨2, 0⟩, ⟨3, 0⟩, ⟨0, 5⟩]).selection :=
  ⟨(c2_scale_snapshot_not_compounded envGood sStartOne rfl rfl rfl
      (by with_unfolding_all decide)).1 [⟨5, 0⟩, ⟨0, 5⟩]
      (by with_unfolding_all decide),
    (c2_scale_snapshot_not_compounded envGood sStartOne rfl rfl rfl
      (by with_unfolding_all decide)).2 [⟨5, 0⟩, ⟨0, 5⟩] [⟨2, 0⟩, ⟨3, 0⟩, ⟨0, 5⟩]
      (by with_unfolding_all decide)⟩

set_option maxRecDepth 8000 in
/-- C2 counterexample: an actor whose pre-drag scale 0.0005 lies below the
0.001 clamp floor of line 921 does NOT return to its pre-drag scale under a
zero-sum drag (out by +50% and exactly back): the first frame clamps the
applied scale up to 0.001, and the final frame's snapshot-times-1 value
0.0005 is again clamped to 0.001 ≠ 0.0005, contradicting the claim for
"every actor in the drag". -/
theorem c2_counterexample :
    radialSum [⟨5, 0⟩, ⟨0, 5⟩] = 0 ∧
    (runScaleDrag envGood sStartTiny [⟨5, 0⟩, ⟨0, 5⟩]).selection ≠
      sStartTiny.selection ∧
    (runScaleDrag envGood sStartTiny [⟨5, 0⟩, ⟨0, 5⟩]).selection =
      [some ⟨Vec3.zero, Vec3.zero, ⟨1/1000, 1/1000, 1/1000⟩⟩] := by
  with_unfolding_all decide

theorem goodTx_ensure (s : SState) (h : goodTx s) : goodTx (ensureDragTransaction s) := by
  unfold ensureDragTransaction
  split_ifs with ho
  · exact h
  · unfold goodTx at h ⊢
    simp_all

theorem goodTx_end (s : SState) (h : goodTx s) : goodTx (endDragTransaction s) := by
  unfold goodTx at h
  unfold goodTx endDragTransaction
  simp_all

theorem goodTx_moveH (env : MoveEnv) (s : SState) (d : Vec2) (h : goodTx s) :
    goodTx (moveSelectedActorsHorizontal env s d) := by
  simp only [moveSelectedActorsHorizontal, ensureDragTransaction]
  split_ifs <;> first
    | exact h
    | (unfold goodTx at h ⊢; simp_all)

theorem goodTx_moveV (env : MoveEnv) (s : SState) (dy : ℚ) (h : goodTx s) :
    goodTx (moveSelectedActorsVertical env s dy) := by
  simp only [moveSelectedActorsVertical, ensureDragTransaction]
  split_ifs <;> first
    | exact h
    | (unfold goodTx at h ⊢; simp_all)

theorem goodTx_scale (env : MoveEnv) (s : SState) (d : Vec2) (h : goodTx s) :
    goodTx (scaleSelectedActorsUniform env s d) := by
  simp only [scaleSelectedActorsUniform, ensureDragTransaction]
  split_ifs <;> first
    | exact h
    | (unfold goodTx at h ⊢; simp_all)

theorem goodTx_keyDown (ctx : Ctx) (s : SState) (k : SKey) (pos : Vec2)
    (h : goodTx s) : goodTx (shortcutKeyDown ctx s k pos).1 := by
  cases k <;> simp only [shortcutKeyDown, setCursorHidden] <;>
    split_ifs <;> exact h

theorem goodTx_keyUp (ctx : Ctx) (s : SState) (k : SKey) (h : goodTx s) :
    goodTx (shortcutKeyUp ctx s k).1 := by
  cases k <;> simp only [shortcutKeyUp, endDragTransaction, setCursorHidden] <;>
    split_ifs <;> first
      | exact h
      | (unfold goodTx at h ⊢; simp_all)

theorem goodTx_tick (env : MoveEnv) (ctx : Ctx) (s : SState) (pos : Vec2)
    (h : goodTx s) : goodTx (shortcutTick env ctx s pos).1 := by
  have hs1 : ∀ q : Vec2, goodTx { s with lastMousePosition := q } := by
    intro q
    unfold goodTx at h ⊢
    simp_all
  simp only [shortcutTick]
  by_cases hp : ctx.play = true
  · rw [if_pos hp]; exact h
  · rw [if_neg hp]
    by_cases hh : (s.bQKeyDown || s.bEKeyDown || s.bRKeyDown) = true
    · rw [if_pos hh]
      by_cases hc : s.bCursorHidden = true
      all_goals first
        | rw [if_pos hc]
        | rw [if_neg hc]
      all_goals dsimp only
      all_goals by_cases hz : (pos.sub s.lastMousePosition).isNearlyZero
      all_goals first
        | (rw [if_pos hz]; exact hs1 _)
        | rw [if_neg hz]
      all_goals by_cases hq : s.bQKeyDown = true
      all_goals first
        | (rw [if_pos hq]; exact goodTx_moveH _ _ _ (hs1 _))
        | rw [if_neg hq]
      all_goals by_cases he : s.bEKeyDown = true
      all_goals first
        | (rw [if_pos he]; exact goodTx_moveV _ _ _ (hs1 _))
        | rw [if_neg he]
      all_goals by_cases hr : s.bRKeyDown = true
      all_goals first
        | (rw [if_pos hr]; exact goodTx_scale _ _ _ (hs1 _))
        | (rw [if_neg hr]; exact hs1 _)
    · rw [if_neg hh]; exact h

theorem goodTx_step (s : SState) (ev : SEvent) (h : goodTx s) :
    goodTx (shortcutStep s ev) := by
  cases ev with
  | keyDown k ctx pos => exact goodTx_keyDown ctx s k pos h
  | keyUp k ctx => exact goodTx_keyUp ctx s k h
  | frameTick env ctx pos => exact goodTx_tick env ctx s pos h

theorem goodTx_run (evs : List SEvent) : ∀ s : SState, goodTx s →
    goodTx (shortcutRun s evs) := by
  induction evs with
  | nil => intro s h; exact h
  | cons ev evs ih =>
    intro s h
    exact ih (shortcutStep s ev) (goodTx_step s ev h)

theorem moveSelection_ne_nil (sel : Selection) (delta : Vec3) (h : sel ≠ []) :
    moveSelection sel delta ≠ [] := by
  unfold moveSelection
  intro hc
  exact h (List.map_eq_nil_iff.mp hc)

theorem applyScaleSnapshot_ne_nil (sel : Selection) (snaps : List Vec3) (m : ℚ)
    (h : sel ≠ []) : applyScaleSnapshot sel snaps m ≠ [] := by
  intro hc
  apply h
  have := applyScaleSnapshot_length sel snaps m
  rw [hc] at this
  exact List.eq_nil_of_length_eq_zero this.symm

theorem bool_eq_false_of_ne_true {b : Bool} (h : ¬b = true) : b = false := by
  cases b
  · rfl
  · exact absurd rfl h

theorem moveH_session_fields (env : MoveEnv) (s : SState) (d : Vec2)
    (hge : env.gEditorOk = true) (hvp : env.viewportOk = true)
    (hsel : s.selection ≠ []) (hod : s.dragTransactionOpen = s.bDragInitialized) :
    (moveSelectedActorsHorizontal env s d).bQKeyDown = s.bQKeyDown ∧
    (moveSelectedActorsHorizontal env s d).bEKeyDown = s.bEKeyDown ∧
    (moveSelectedActorsHorizontal env s d).bRKeyDown = s.bRKeyDown ∧
    (moveSelectedActorsHorizontal env s d).bCursorHidden = s.bCursorHidden ∧
    (moveSelectedActorsHorizontal env s d).lastMousePosition = s.lastMousePosition ∧
    (moveSelectedActorsHorizontal env s d).dragStartCursorPos = s.dragStartCursorPos ∧
    (moveSelectedActorsHorizontal env s d).selection ≠ [] ∧
    (moveSelectedActorsHorizontal env s d).bDragInitialized = true ∧
    (moveSelectedActorsHorizontal env s d).dragTransactionOpen = true ∧
    (moveSelectedActorsHorizontal env s d).txCreated =
      s.txCreated + (if s.bDragInitialized = true then 0 else 1) ∧
    (moveSelectedActorsHorizontal env s d).txReleased = s.txReleased := by
  simp only [moveSelectedActorsHorizontal, ensureDragTransaction]
  rw [if_neg (by simp [hge]), if_neg hsel, if_neg (by simp [hvp])]
  by_cases hd : s.bDragInitialized = true
  · rw [if_neg (by simp [hd])]
    exact ⟨rfl, rfl, rfl, rfl, rfl, rfl, moveSelection_ne_nil _ _ hsel, hd,
      by rw [hod]; exact hd, by simp [hd], rfl⟩
  · have hd' : s.bDragInitialized = false := bool_eq_false_of_ne_true hd
    rw [if_pos (by simp [hd']), if_neg (by simp [hod, hd'])]
    exact ⟨rfl, rfl, rfl, rfl, rfl, rfl, moveSelection_ne_nil _ _ hsel, rfl, rfl,
      by simp [hd'], rfl⟩

theorem moveV_session_fields (env : MoveEnv) (s : SState) (dy : ℚ)
    (hge : env.gEditorOk = true) (hvp : env.viewportOk = true)
    (hsel : s.selection ≠ []) (hod : s.dragTransactionOpen = s.bDragInitialized) :
    (moveSelectedActorsVertical env s dy).bQKeyDown = s.bQKeyDown ∧
    (moveSelectedActorsVertical env s dy).bEKeyDown = s.bEKeyDown ∧
    (moveSelectedActorsVertical env s dy).bRKeyDown = s.bRKeyDown ∧
    (moveSelectedActorsVertical env s dy).bCursorHidden = s.bCursorHidden ∧
    (moveSelectedActorsVertical env s dy).lastMousePosition = s.lastMousePosition ∧
    (moveSelectedActorsVertical env s dy).dragStartCursorPos = s.dragStartCursorPos ∧
    (moveSelectedActorsVertical env s dy).selection ≠ [] ∧
    (moveSelectedActorsVertical env s dy).bDragInitialized = true ∧
    (moveSelectedActorsVertical env s dy).dragTransactionOpen = true ∧
    (moveSelectedActorsVertical env s dy).txCreated =
      s.txCreated + (if s.bDragInitialized = true then 0 else 1) ∧
    (moveSelectedActorsVertical env s dy).txReleased = s.txReleased := by
  simp only [moveSelectedActorsVertical, ensureDragTransaction]
  rw [if_neg (by simp [hge]), if_neg hsel, if_neg (by simp [hvp])]
  by_cases hd : s.bDragInitialized = true
  · rw [if_neg (by simp [hd])]
    exact ⟨rfl, rfl, rfl, rfl, rfl, rfl, moveSelection_ne_nil _ _ hsel, hd,
      by rw [hod]; exact hd, by simp [hd], rfl⟩
  · have hd' : s.bDragInitialized = false := bool_eq_false_of_ne_true hd
    rw [if_pos (by simp [hd']), if_neg (by simp [hod, hd'])]
    exact ⟨rfl, rfl, rfl, rfl, rfl, rfl, moveSelection_ne_nil _ _ hsel, rfl, rfl,
      by simp [hd'], rfl⟩

theorem scale_session_fields (env : MoveEnv) (s : SState) (d : Vec2)
    (hge : env.gEditorOk = true)
    (hsel : s.selection ≠ []) (hod : s.dragTransactionOpen = s.bDragInitialized) :
    (scaleSelectedActorsUniform env s d).bQKeyDown = s.bQKeyDown ∧
    (scaleSelectedActorsUniform env s d).bEKeyDown = s.bEKeyDown ∧
    (scaleSelectedActorsUniform env s d).bRKeyDown = s.bRKeyDown ∧
    (scaleSelectedActorsUniform env s d).bCursorHidden = s.bCursorHidden ∧
    (scaleSelectedActorsUniform env s d).lastMousePosition = s.lastMousePosition ∧
    (scaleSelectedActorsUniform env s d).dragStartCursorPos = s.dragStartCursorPos ∧
    (scaleSelectedActorsUniform env s d).selection ≠ [] ∧
    (scaleSelectedActorsUniform env s d).bDragInitialized = true ∧
    (scaleSelectedActorsUniform env s d).dragTransactionOpen = true ∧
    (scaleSelectedActorsUniform env s d).txCreated =
      s.txCreated + (if s.bDragInitialized = true then 0 else 1) ∧
    (scaleSelectedActorsUniform env s d).txReleased = s.txReleased := by
  simp only [scaleSelectedActorsUniform, ensureDragTransaction]
  rw [if_neg (by simp [hge]), if_neg hsel]
  by_cases hd : s.bDragInitialized = true
  · rw [if_neg (by simp [hd])]
    exact ⟨rfl, rfl, rfl, rfl, rfl, rfl, applyScaleSnapshot_ne_nil _ _ _ hsel, hd,
      by rw [hod]; exact hd, by simp [hd], rfl⟩
  · have hd' : s.bDragInitialized = false := bool_eq_false_of_ne_true hd
    rw [if_pos (by simp [hd']), if_neg (by simp [hod, hd'])]
    exact ⟨rfl, rfl, rfl, rfl, rfl, rfl, applyScaleSnapshot_ne_nil _ _ _ hsel, rfl, rfl,
      by simp [hd'], rfl⟩

theorem sessionInv_after_op (k : SKey) (pos0 : Vec2) (c0 r0 : Nat) (s1 r : SState)
    (hinv1 : sessionInv k pos0 c0 r0 s1)
    (hfields : r.bQKeyDown = s1.bQKeyDown ∧ r.bEKeyDown = s1.bEKeyDown ∧
      r.bRKeyDown = s1.bRKeyDown ∧ r.bCursorHidden = s1.bCursorHidden ∧
      r.lastMousePosition = s1.lastMousePosition ∧
      r.dragStartCursorPos = s1.dragStartCursorPos ∧ r.selection ≠ [] ∧
      r.bDragInitialized = true ∧ r.dragTransactionOpen = true ∧
      r.txCreated = s1.txCreated + (if s1.bDragInitialized = true then 0 else 1) ∧
      r.txReleased = s1.txReleased) :
    sessionInv k pos0 c0 r0 r ∧ r.bDragInitialized = true := by
  obtain ⟨hflags, hch, hlm, hds, hsel, hod, hc, hr'⟩ := hinv1
  obtain ⟨f1, f2, f3, f4, f5, f6, f7, f8, f9, f10, f11⟩ := hfields
  refine ⟨⟨?_, ?_, ?_, ?_, f7, ?_, ?_, ?_⟩, f8⟩
  · cases k <;> simp_all [keyFlagsMatch]
  · rw [f4, hch]
  · rw [f5, hlm]
  · rw [f6, hds]
  · rw [f9, f8]
  · rw [f10, hc, f8]
    by_cases hd : s1.bDragInitialized = true <;> simp [hd]
  · rw [f11, hr']

theorem sessionInv_keyDown (k : SKey) (ctx0 : Ctx) (pos0 : Vec2) (s0 : SState)
    (hq : s0.bQKeyDown = false) (he : s0.bEKeyDown = false)
    (hr : s0.bRKeyDown = false) (hinit : s0.bDragInitialized = false)
    (hopen : s0.dragTransactionOpen = false) (hsel : s0.selection ≠ [])
    (hp : ctx0.play = false) (hl : ctx0.landscapeOrFoliage = false)
    (hf : ctx0.viewportFocused = true) :
    sessionInv k pos0 s0.txCreated s0.txReleased
      (shortcutKeyDown ctx0 s0 k pos0).1 ∧
    (shortcutKeyDown ctx0 s0 k pos0).1.bDragInitialized = false := by
  simp only [shortcutKeyDown, setCursorHidden]
  rw [if_neg (by simp [hp]), if_neg (by simp [hl]), if_neg (by simp [hf])]
  cases k <;> split_ifs <;> constructor <;>
    simp_all [sessionInv, keyFlagsMatch]

theorem sessionInv_tick (k : SKey) (pos0 : Vec2) (c0 r0 : Nat) (env : MoveEnv)
    (ctx : Ctx) (pos : Vec2) (s : SState)
    (hp : ctx.play = false) (hge : env.gEditorOk = true) (hvp : env.viewportOk = true)
    (hinv : sessionInv k pos0 c0 r0 s) :
    sessionInv k pos0 c0 r0 (shortcutTick env ctx s pos).1 ∧
    (s.bDragInitialized = true →
      (shortcutTick env ctx s pos).1.bDragInitialized = true) ∧
    (¬ (pos.sub pos0).isNearlyZero →
      (shortcutTick env ctx s pos).1.bDragInitialized = true) := by
  have hinvkeep := hinv
  obtain ⟨hflags, hch, hlm, hds, hsel, hod, hc, hr'⟩ := hinv
  have hinv1 : sessionInv k pos0 c0 r0
      { s with lastMousePosition := s.dragStartCursorPos } := by
    unfold sessionInv at *
    cases k <;> simp_all [keyFlagsMatch]
  simp only [shortcutTick]
  rw [if_neg (by simp [hp])]
  have hh : (s.bQKeyDown || s.bEKeyDown || s.bRKeyDown) = true := by
    cases k <;> simp_all [keyFlagsMatch]
  rw [if_pos hh, if_pos hch, hlm]
  by_cases hz : (pos.sub pos0).isNearlyZero
  · rw [if_pos hz]
    exact ⟨hinv1, fun hd => hd, fun hcontra => absurd hz hcontra⟩
  · rw [if_neg hz]
    dsimp only
    cases k with
    | keyQ =>
      rw [if_pos hflags.1]
      dsimp only
      have hfields := moveH_session_fields env
        { s with lastMousePosition := s.dragStartCursorPos }
        (pos.sub pos0) hge hvp hsel hod
      have hmain := sessionInv_after_op _ pos0 c0 r0 _ _ hinv1 hfields
      exact ⟨hmain.1, fun _ => hmain.2, fun _ => hmain.2⟩
    | keyE =>
      rw [if_neg (by simp [hflags.1]), if_pos hflags.2.1]
      dsimp only
      have hfields := moveV_session_fields env
        { s with lastMousePosition := s.dragStartCursorPos }
        (pos.sub pos0).y hge hvp hsel hod
      have hmain := sessionInv_after_op _ pos0 c0 r0 _ _ hinv1 hfields
      exact ⟨hmain.1, fun _ => hmain.2, fun _ => hmain.2⟩
    | keyR =>
      rw [if_neg (by simp [hflags.1]), if_neg (by simp [hflags.2.1]),
        if_pos hflags.2.2]
      dsimp only
      have hfields := scale_session_fields env
        { s with lastMousePosition := s.dragStartCursorPos }
        (pos.sub pos0) hge hsel hod
      have hmain := sessionInv_after_op _ pos0 c0 r0 _ _ hinv1 hfields
      exact ⟨hmain.1, fun _ => hmain.2, fun _ => hmain.2⟩

theorem sessionInv_runTicks (k : SKey) (pos0 : Vec2) (c0 r0 : Nat) :
    ∀ (ticks : List TickData) (s : SState),
      (∀ t ∈ ticks, t.ctx.play = false ∧ t.env.gEditorOk = true ∧
        t.env.viewportOk = true) →
      sessionInv k pos0 c0 r0 s →
      sessionInv k pos0 c0 r0 (shortcutRun s (tickEvents ticks)) ∧
      ((s.bDragInitialized = true ∨
          ∃ t ∈ ticks, ¬ (t.pos.sub pos0).isNearlyZero) →
        (shortcutRun s (tickEvents ticks)).bDragInitialized = true) := by
  intro ticks
  induction ticks with
  | nil =>
    intro s _ hinv
    refine ⟨hinv, ?_⟩
    rintro (hd | ⟨t, ht, _⟩)
    · exact hd
    · simp at ht
  | cons t ts ih =>
    intro s hgood hinv
    have hgt := hgood t (List.mem_cons_self t ts)
    have hstep := sessionInv_tick k pos0 c0 r0 t.env t.ctx t.pos s
      hgt.1 hgt.2.1 hgt.2.2 hinv
    have hrest : ∀ u ∈ ts, u.ctx.play = false ∧ u.env.gEditorOk = true ∧
        u.env.viewportOk = true := fun u hu => hgood u (List.mem_cons_of_mem t hu)
    have hrec := ih (shortcutTick t.env t.ctx s t.pos).1 hrest hstep.1
    have hshow : shortcutRun s (tickEvents (t :: ts)) =
        shortcutRun (shortcutTick t.env t.ctx s t.pos).1 (tickEvents ts) := rfl
    rw [hshow]
    refine ⟨hrec.1, ?_⟩
    rintro (hd | ⟨u, hu, hmov⟩)
    · exact hrec.2 (Or.inl (hstep.2.1 hd))
    · rcases List.mem_cons.mp hu with rfl | hu'
      · exact hrec.2 (Or.inl (hstep.2.2 hmov))
      · exact hrec.2 (Or.inr ⟨u, hu', hmov⟩)

theorem sessionInv_keyUp (k : SKey) (ctx1 : Ctx) (pos0 : Vec2) (c0 r0 : Nat)
    (s : SState) (hp : ctx1.play = false) (hinv : sessionInv k pos0 c0 r0 s)
    (hd : s.bDragInitialized = true) :
    (shortcutKeyUp ctx1 s k).1.txCreated = c0 + 1 ∧
    (shortcutKeyUp ctx1 s k).1.txReleased = r0 + 1 ∧
    (shortcutKeyUp ctx1 s k).1.dragTransactionOpen = false := by
  obtain ⟨hflags, hch, hlm, hds, hsel, hod, hc, hr'⟩ := hinv
  have hopen : s.dragTransactionOpen = true := by rw [hod]; exact hd
  cases k <;>
    simp only [shortcutKeyUp, endDragTransaction, setCursorHidden] <;>
    rw [if_neg (by simp [hp])] <;>
    split_ifs <;> simp_all

/-- C3 (amended): for a single-key drag session — no other drag key involved
(the amendment forced by c3_counterexample) — starting from an idle state
(no drag key held, no drag initialized, no transaction open, non-empty
selection), with good contexts (no Play session, no Landscape/Foliage mode,
focused viewport, host singletons present) and at least one processed
movement, exactly one drag transaction is created over the whole session
(regardless of the number of frame ticks), it is released by the key-up, and
along ANY event sequence the number of transactions ever created never
exceeds the number released plus one (at most one open at any time). -/
theorem c3_one_transaction_per_drag (k : SKey) (ctx0 ctx1 : Ctx) (pos0 : Vec2)
    (ticks : List TickData) (s0 : SState)
    (hq : s0.bQKeyDown = false) (he : s0.bEKeyDown = false)
    (hr : s0.bRKeyDown = false) (hinit : s0.bDragInitialized = false)
    (hopen : s0.dragTransactionOpen = false) (hsel : s0.selection ≠ [])
    (hp0 : ctx0.play = false) (hl0 : ctx0.landscapeOrFoliage = false)
    (hf0 : ctx0.viewportFocused = true)
    (hticks : ∀ t ∈ ticks, t.ctx.play = false ∧ t.env.gEditorOk = true ∧
      t.env.viewportOk = true)
    (hmove : ∃ t ∈ ticks, ¬ (t.pos.sub pos0).isNearlyZero)
    (hp1 : ctx1.play = false) :
    (shortcutRun s0 (sessionEvents k ctx0 pos0 ticks ctx1)).txCreated =
      s0.txCreated + 1 ∧
    (shortcutRun s0 (sessionEvents k ctx0 pos0 ticks ctx1)).txReleased =
      s0.txReleased + 1 ∧
    (shortcutRun s0 (sessionEvents k ctx0 pos0 ticks ctx1)).dragTransactionOpen =
      false ∧
    (∀ evs : List SEvent, s0.txCreated = s0.txReleased →
      (shortcutRun s0 evs).txCreated ≤ (shortcutRun s0 evs).txReleased + 1) := by
  have hsplit : shortcutRun s0 (sessionEvents k ctx0 pos0 ticks ctx1) =
      (shortcutKeyUp ctx1
        (shortcutRun (shortcutKeyDown ctx0 s0 k pos0).1 (tickEvents ticks)) k).1 := by
    unfold sessionEvents shortcutRun tickEvents
    rw [List.foldl_cons, List.foldl_append]
    rfl
  have hdown := sessionInv_keyDown k ctx0 pos0 s0 hq he hr hinit hopen hsel
    hp0 hl0 hf0
  have hruns := sessionInv_runTicks k pos0 s0.txCreated s0.txReleased ticks
    (shortcutKeyDown ctx0 s0 k pos0).1 hticks hdown.1
  have hdinit : (shortcutRun (shortcutKeyDown ctx0 s0 k pos0).1
      (tickEvents ticks)).bDragInitialized = true := hruns.2 (Or.inr hmove)
  have hup := sessionInv_keyUp k ctx1 pos0 s0.txCreated s0.txReleased
    (shortcutRun (shortcutKeyDown ctx0 s0 k pos0).1 (tickEvents ticks))
    hp1 hruns.1 hdinit
  rw [hsplit]
  refine ⟨hup.1, hup.2.1, hup.2.2, ?_⟩
  intro evs hcr
  have hgood0 : goodTx s0 := by
    unfold goodTx
    rw [hopen]
    simpa using hcr
  have hgood := goodTx_run evs s0 hgood0
  unfold goodTx at hgood
  by_cases ho : (shortcutRun s0 evs).dragTransactionOpen = true <;> simp_all

/-- Witness for C3: a one-tick Q drag from the idle one-actor state creates
exactly one transaction and releases it on key-up. -/
theorem c3_one_transaction_per_drag_witness :
    (shortcutRun sStartOne (sessionEvents SKey.keyQ ctxGood ⟨0, 0⟩
        [⟨envGood, ctxGood, ⟨10, 0⟩⟩] ctxGood)).txCreated =
      sStartOne.txCreated + 1 ∧
    (shortcutRun sStartOne (sessionEvents SKey.keyQ ctxGood ⟨0, 0⟩
        [⟨envGood, ctxGood, ⟨10, 0⟩⟩] ctxGood)).txReleased =
      sStartOne.txReleased + 1 ∧
    (shortcutRun sStartOne (sessionEvents SKey.keyQ ctxGood ⟨0, 0⟩
        [⟨envGood, ctxGood, ⟨10, 0⟩⟩] ctxGood)).dragTransactionOpen = false ∧
    (∀ evs : List SEvent, sStartOne.txCreated = sStartOne.txReleased →
      (shortcutRun sStartOne evs).txCreated ≤
        (shortcutRun sStartOne evs).txReleased + 1) :=
  c3_one_transaction_per_drag SKey.keyQ ctxGood ctxGood ⟨0, 0⟩
    [⟨envGood, ctxGood, ⟨10, 0⟩⟩] sStartOne rfl rfl rfl rfl rfl
    (by simp [sStartOne]) rfl rfl rfl
    (by intro t ht; simp at ht; rw [ht]; exact ⟨rfl, rfl, rfl⟩)
    ⟨⟨envGood, ctxGood, ⟨10, 0⟩⟩, by simp, by with_unfolding_all decide⟩ rfl

/-- C3 counterexample: drag sessions of OVERLAPPING drag keys share and split
transactions.  Trace: E down, one vertical movement (transaction 1 created);
Q down, one horizontal movement (bDragInitialized is still set, so NO new
transaction); Q up (EndDragTransaction closes transaction 1).  The Q session
— key-down through key-up with one processed movement (the dispatched
operation of its tick is the horizontal move) — created ZERO transactions:
txCreated is 1 both before and after it, contradicting "exactly one undo
transaction is created" for every drag session. -/
theorem c3_counterexample :
    (shortcutRun sStartOne evsOverlapA).txCreated = 1 ∧
    (shortcutRun sStartOne evsOverlapB).txCreated = 1 ∧
    (shortcutTick envGood ctxGood
        (shortcutRun sStartOne
          (evsOverlapA ++ [SEvent.keyDown SKey.keyQ ctxGood ⟨0, 0⟩]))
        ⟨10, 0⟩).2 = some DragOp.horizontal := by
  with_unfolding_all decide
